import Mathlib

/-!
Decoder initialisation and hardware pixel-format negotiation (`src/decoder.cpp`).

A shallow embedding of the two functions of `decoder.cpp`:

* `get_hw_format`, the format-selection callback, which scans a candidate array for
  the value of the file-level static `hw_pix_fmt`;
* `init_decoder`, the straight-line initialisation sequence with its hardware
  configuration loop.

The FFmpeg library is external to the repository.  Its calls are taken as a parameter
(`Lib`), which supplies what each call returns; the fields of the FFmpeg objects the
code reads or writes are modelled as record fields.  Process state (the static
`hw_pix_fmt`, the caller's three output locations, the resources currently held, the
diagnostics logged and the stages executed) is passed explicitly in `Proc`.  The model is
undefined (`Except.error`) only where the C code reads `streams[stream_index]` out of range.
-/

namespace Video2x

/-! ## Constants of the FFmpeg and C headers -/

/-- The value of `AV_PIX_FMT_NONE` in `libavutil/pixfmt.h`. -/
def AV_PIX_FMT_NONE : Int := -1

/-- The value of `AV_CODEC_HW_CONFIG_METHOD_HW_DEVICE_CTX` in `libavcodec/codec.h`. -/
def AV_CODEC_HW_CONFIG_METHOD_HW_DEVICE_CTX : Nat := 0x01

/-- The value of `ENOMEM` in `errno.h`. -/
def ENOMEM : Int := 12

/-- The value of `ENOSYS` in `errno.h` (Linux value). -/
def ENOSYS : Int := 38

/-- The `AVERROR(e)` of `libavutil/error.h`: errno values are positive, error codes negative. -/
def AVERROR (e : Int) : Int := -e

/-- The `MKTAG(a,b,c,d)` of `libavutil/macros.h`. -/
def MKTAG (a b c d : Nat) : Nat := a ||| (b <<< 8) ||| (c <<< 16) ||| (d <<< 24)

/-- The `AVERROR_DECODER_NOT_FOUND` of `libavutil/error.h`, `FFERRTAG(0xF8,'D','E','C')`. -/
def AVERROR_DECODER_NOT_FOUND : Int := -((MKTAG 0xF8 ('D').toNat ('E').toNat ('C').toNat : Nat) : Int)

/-- The `AVERROR_STREAM_NOT_FOUND` of `libavutil/error.h`, `FFERRTAG(0xF8,'S','T','R')`. -/
def AVERROR_STREAM_NOT_FOUND : Int := -((MKTAG 0xF8 ('S').toNat ('T').toNat ('R').toNat : Nat) : Int)

/-- The `AVERROR_INVALIDDATA` of `libavutil/error.h`, `FFERRTAG('I','N','D','A')`. -/
def AVERROR_INVALIDDATA : Int :=
  -((MKTAG ('I').toNat ('N').toNat ('D').toNat ('A').toNat : Nat) : Int)

/-! ## The callback `get_hw_format` -/

/-- Diagnostics: one constructor per `spdlog::error` call site of `decoder.cpp`, carrying
the values the message is formatted with. -/
inductive Diagnostic where
  /-- Message "Failed to get HW surface format." (line 18) -/
  | hw_surface_format
  /-- Message "Could not open input file" with the path (line 35) -/
  | open_input (in_fpath : String)
  /-- Message "Failed to retrieve input stream information" (line 40) -/
  | stream_info
  /-- Message "Could not find video stream in the input file" (line 47) -/
  | no_video_stream
  /-- Message "Failed to find decoder for codec ID" with the codec id (line 57) -/
  | decoder_not_found (codec_id : Int)
  /-- Message "Failed to allocate the decoder context" (line 66) -/
  | alloc_context
  /-- Message "Decoder does not support device type" with decoder name and type (line 79) -/
  | hw_unsupported (decoder_name : String) (hw_type : Int)
  /-- Message "Failed to copy decoder parameters to input decoder context" (line 97) -/
  | parameters_copy
  /-- Message "Failed to open decoder for stream" with the stream index (line 107) -/
  | open_decoder (stream_index : Int)
  deriving DecidableEq, Repr

/-- The callback `get_hw_format` (lines 12-20).  `hw_pix_fmt` is the value of the static;
`pix_fmts` is the memory the pointer argument points to, read left to right.  The result is
the returned format together with the diagnostics emitted.  Reading past the end of the
array (no sentinel present) is undefined behaviour, rendered as `none`. -/
def get_hw_format (hw_pix_fmt : Int) : List Int → Option (Int × List Diagnostic)
  | [] => none
  | p :: rest =>
    if p ≠ AV_PIX_FMT_NONE then
      if p = hw_pix_fmt then some (p, [])
      else get_hw_format hw_pix_fmt rest
    else some (AV_PIX_FMT_NONE, [Diagnostic.hw_surface_format])

/-- The candidates of a sentinel-terminated array: the entries before the first sentinel. -/
def candidates (pix_fmts : List Int) : List Int :=
  pix_fmts.takeWhile (fun p => p ≠ AV_PIX_FMT_NONE)

/-- An array is sentinel-terminated when `AV_PIX_FMT_NONE` occurs in it. -/
def SentinelTerminated (pix_fmts : List Int) : Prop := AV_PIX_FMT_NONE ∈ pix_fmts

instance (pix_fmts : List Int) : Decidable (SentinelTerminated pix_fmts) := by
  unfold SentinelTerminated; infer_instance

/-! ## The data `init_decoder` works on -/

/-- An `AVRational`. -/
structure AVRational where
  num : Int
  den : Int
  deriving DecidableEq, Repr

/-- The fields of `AVCodecParameters` the code reads (`codec_id`); `extra` stands for the rest. -/
structure AVCodecParameters where
  codec_id : Int
  extra : Nat
  deriving DecidableEq, Repr

/-- The fields of `AVStream` the code reads. -/
structure AVStream where
  codecpar : AVCodecParameters
  time_base : AVRational
  deriving DecidableEq, Repr

/-- An `AVFormatContext`: the opened input and its stream array. -/
structure AVFormatContext where
  url : String
  streams : List AVStream
  deriving DecidableEq, Repr

/-- An `AVCodecHWConfig`: the fields read at lines 88-90. -/
structure AVCodecHWConfig where
  pix_fmt : Int
  methods : Nat
  device_type : Int
  deriving DecidableEq, Repr

/-- An `AVCodec`: its name and its table of hardware configurations. -/
structure AVCodec where
  name : String
  hw_configs : List AVCodecHWConfig
  deriving DecidableEq, Repr

/-- An `AVBufferRef` to a hardware device context. -/
structure AVBufferRef where
  device : Nat
  deriving DecidableEq, Repr

/-- The value of the `get_format` field of an `AVCodecContext`: the library default, or the
callback `get_hw_format` of this file. -/
inductive GetFormat where
  | library_default
  | get_hw_format
  deriving DecidableEq, Repr

/-- The fields of `AVCodecContext` the code writes, the codec it is bound to, the parameters
copied into it by `avcodec_parameters_to_context` and whether `avcodec_open2` has opened it. -/
structure AVCodecContext where
  codec : AVCodec
  hw_device_ctx : Option AVBufferRef
  get_format : GetFormat
  par : Option AVCodecParameters
  time_base : Option AVRational
  pkt_timebase : Option AVRational
  framerate : Option AVRational
  is_open : Bool
  deriving DecidableEq, Repr

/-- The context `avcodec_alloc_context3 (decoder)` returns when it succeeds: bound to the
decoder, every other field at its library default. -/
def AVCodecContext.fresh (decoder : AVCodec) : AVCodecContext :=
  { codec := decoder, hw_device_ctx := none, get_format := GetFormat.library_default,
    par := none, time_base := none, pkt_timebase := none, framerate := none, is_open := false }

/-- What the FFmpeg calls made by `init_decoder` return.  Calls returning `int` return it
as is; `avformat_open_input` and `avformat_find_stream_info` also give the context as they
leave it; the allocating calls say whether they returned a non-null pointer. -/
structure Lib where
  avformat_open_input : String → Int × AVFormatContext
  avformat_find_stream_info : AVFormatContext → Int × AVFormatContext
  av_find_best_stream : AVFormatContext → Int
  avcodec_find_decoder : Int → Option AVCodec
  avcodec_alloc_context3 : AVCodec → Bool
  av_buffer_ref : AVBufferRef → Bool
  avcodec_parameters_to_context : AVCodecContext → AVCodecParameters → Int
  av_guess_frame_rate : AVFormatContext → AVStream → AVRational
  avcodec_open2 : AVCodecContext → AVCodec → Int

/-- The `avcodec_get_hw_config (codec, index)` of libavcodec: the entry of the codec's
table at `index`, null when the index is past the end. -/
def avcodec_get_hw_config (codec : AVCodec) (index : Nat) : Option AVCodecHWConfig :=
  codec.hw_configs[index]?

/-- The kinds of resource the sequence acquires. -/
inductive Resource where
  /-- the `AVFormatContext` opened by `avformat_open_input` -/
  | input_source
  /-- the `AVCodecContext` allocated by `avcodec_alloc_context3` -/
  | decoding_context
  /-- the reference added by `av_buffer_ref` -/
  | hw_device_ref
  deriving DecidableEq, Repr

/-- The stages of the sequence, one per fallible step of `init_decoder`. -/
inductive Stage where
  | open_input
  | stream_probe
  | stream_select
  | decoder_lookup
  | context_alloc
  | hw_negotiation
  | parameter_copy
  | decoder_open
  deriving DecidableEq, Repr

/-- What a stage got back from the library: an `int`, or a pointer that is null or not. -/
inductive Outcome where
  | ret (code : Int)
  | ptr (nonnull : Bool)
  deriving DecidableEq, Repr

/-- One executed stage with what it got back. -/
structure Event where
  stage : Stage
  outcome : Outcome
  deriving DecidableEq, Repr

/-- Process state around a call of `init_decoder`: the static `hw_pix_fmt`, the caller's
three output locations, and three records kept for the proofs: the resources currently
held (most recent first), the diagnostics logged and the stages executed (oldest first). -/
structure Proc where
  hw_pix_fmt : Int
  fmt_ctx : Option AVFormatContext
  dec_ctx : Option AVCodecContext
  in_vstream_idx : Int
  live : List Resource
  log : List Diagnostic
  events : List Event
  deriving DecidableEq, Repr

/-- The state at program start: `hw_pix_fmt` initialised to `AV_PIX_FMT_NONE` (line 9). -/
def Proc.initial : Proc :=
  { hw_pix_fmt := AV_PIX_FMT_NONE, fmt_ctx := none, dec_ctx := none, in_vstream_idx := 0,
    live := [], log := [], events := [] }

/-- Record that a resource was acquired. -/
def Proc.acquire (s : Proc) (r : Resource) : Proc := { s with live := r :: s.live }

/-- Record that a resource was released. -/
def Proc.release (s : Proc) (r : Resource) : Proc := { s with live := s.live.erase r }

/-- A `spdlog::error` call. -/
def Proc.error (s : Proc) (d : Diagnostic) : Proc := { s with log := s.log ++ [d] }

/-- Record an executed stage. -/
def Proc.record (s : Proc) (stage : Stage) (o : Outcome) : Proc :=
  { s with events := s.events ++ [Event.mk stage o] }

/-- The `avcodec_free_context (&codec_ctx)` of libavcodec: frees the context, dropping the
hardware device reference it holds, if any. -/
def avcodec_free_context (codec_ctx : AVCodecContext) (s : Proc) : Proc :=
  let s := match codec_ctx.hw_device_ctx with
    | some _ => s.release Resource.hw_device_ref
    | none => s
  s.release Resource.decoding_context

/-- The `avformat_close_input (&ifmt_ctx)` of libavformat. -/
def avformat_close_input (s : Proc) : Proc := s.release Resource.input_source

/-- The test of lines 88-89. -/
def qualifies (config : AVCodecHWConfig) (hw_type : Int) : Bool :=
  (config.methods &&& AV_CODEC_HW_CONFIG_METHOD_HW_DEVICE_CTX != 0) &&
    config.device_type == hw_type

/-- How the loop of lines 76-93 ends: at a null configuration, or at a qualifying one. -/
inductive HwScan where
  | unsupported (i : Nat)
  | found (i : Nat) (pix_fmt : Int)
  deriving DecidableEq, Repr

/-- The loop of lines 76-93 from index `i`, run for at most `fuel` iterations (`none` when
the fuel runs out before the loop ends).  The counter is an `int` in the source; a codec's
table is a short static array, so the counter stays far below `INT_MAX`. -/
def hw_config_loop (decoder : AVCodec) (hw_type : Int) : Nat → Nat → Option HwScan
  | 0, _ => none
  | fuel + 1, i =>
    match avcodec_get_hw_config decoder i with
    | none => some (HwScan.unsupported i)
    | some config =>
      if qualifies config hw_type then some (HwScan.found i config.pix_fmt)
      else hw_config_loop decoder hw_type fuel (i + 1)

/-- What leaves the model undefined. -/
inductive Fault where
  /-- `ifmt_ctx->streams[stream_index]` read past the stream array -/
  | stream_index_out_of_range
  /-- the configuration loop did not end within its iteration bound -/
  | loop_bound
  deriving DecidableEq, Repr

/-- A finished call: the returned `int`, the locals `ifmt_ctx` and `codec_ctx` as they are
at the `return`, and the process state. -/
structure Run where
  ret : Int
  ifmt_ctx : Option AVFormatContext
  codec_ctx : Option AVCodecContext
  proc : Proc
  deriving DecidableEq, Repr

/-- Lines 96-115 of `init_decoder`: copy the stream's parameters into the context, set its
time bases and frame rate, open it, and on success write the three outputs. -/
def configure_and_open (lib : Lib) (ifmt_ctx : AVFormatContext) (stream_index : Int)
    (video_stream : AVStream) (decoder : AVCodec) (codec_ctx : AVCodecContext) (s : Proc) : Run :=
  let ret := lib.avcodec_parameters_to_context codec_ctx video_stream.codecpar
  let s := s.record Stage.parameter_copy (Outcome.ret ret)
  if ret < 0 then
    ⟨ret, some ifmt_ctx, some codec_ctx, s.error Diagnostic.parameters_copy⟩
  else
  let codec_ctx := { codec_ctx with
    par := some video_stream.codecpar,
    time_base := some video_stream.time_base,
    pkt_timebase := some video_stream.time_base,
    framerate := some (lib.av_guess_frame_rate ifmt_ctx video_stream) }
  let ret := lib.avcodec_open2 codec_ctx decoder
  let s := s.record Stage.decoder_open (Outcome.ret ret)
  if ret < 0 then
    ⟨ret, some ifmt_ctx, some codec_ctx, s.error (Diagnostic.open_decoder stream_index)⟩
  else
  ⟨0, some ifmt_ctx, some { codec_ctx with is_open := true },
    { s with fmt_ctx := some ifmt_ctx, dec_ctx := some { codec_ctx with is_open := true },
             in_vstream_idx := stream_index }⟩

/-- Lines 70-94 of `init_decoder` followed by the rest of the function: with a device
reference, attach it, install the callback and scan the decoder's configurations (the loop
is given one iteration more than the decoder has configurations); then go on to
`configure_and_open`, unless the scan ends at a null configuration. -/
def negotiate_and_finish (lib : Lib) (hw_type : Int) (hw_ctx : Option AVBufferRef)
    (ifmt_ctx : AVFormatContext) (stream_index : Int) (video_stream : AVStream)
    (decoder : AVCodec) (codec_ctx : AVCodecContext) (s : Proc) : Except Fault Run :=
  match hw_ctx with
  | none => Except.ok (configure_and_open lib ifmt_ctx stream_index video_stream decoder codec_ctx s)
  | some hw =>
    let attached := lib.av_buffer_ref hw
    let codec_ctx :=
      { codec_ctx with hw_device_ctx := if attached then some hw else none,
                       get_format := GetFormat.get_hw_format }
    let s := if attached then s.acquire Resource.hw_device_ref else s
    match hw_config_loop decoder hw_type (decoder.hw_configs.length + 1) 0 with
    | none => Except.error Fault.loop_bound
    | some (HwScan.unsupported _) =>
      let s := s.record Stage.hw_negotiation (Outcome.ptr false)
      let s := s.error (Diagnostic.hw_unsupported decoder.name hw_type)
      let s := avcodec_free_context codec_ctx s
      let s := avformat_close_input s
      Except.ok ⟨AVERROR ENOSYS, none, none, s⟩
    | some (HwScan.found _ pix_fmt) =>
      let s := s.record Stage.hw_negotiation (Outcome.ptr true)
      Except.ok (configure_and_open lib ifmt_ctx stream_index video_stream decoder codec_ctx
        { s with hw_pix_fmt := pix_fmt })

/-- The function `init_decoder` (lines 22-116).  `hw_ctx = none` is the null pointer.  When
`avformat_open_input` fails the library leaves `ifmt_ctx` null and nothing is held. -/
def init_decoder (lib : Lib) (hw_type : Int) (hw_ctx : Option AVBufferRef)
    (in_fpath : String) (s : Proc) : Except Fault Run :=
  let ret := (lib.avformat_open_input in_fpath).1
  let s := s.record Stage.open_input (Outcome.ret ret)
  if ret < 0 then
    Except.ok ⟨ret, none, none, s.error (Diagnostic.open_input in_fpath)⟩
  else
  let s := s.acquire Resource.input_source
  let probed := lib.avformat_find_stream_info (lib.avformat_open_input in_fpath).2
  let ret := probed.1
  let ifmt_ctx := probed.2
  let s := s.record Stage.stream_probe (Outcome.ret ret)
  if ret < 0 then
    Except.ok ⟨ret, some ifmt_ctx, none, s.error Diagnostic.stream_info⟩
  else
  let ret := lib.av_find_best_stream ifmt_ctx
  let s := s.record Stage.stream_select (Outcome.ret ret)
  if ret < 0 then
    Except.ok ⟨ret, some ifmt_ctx, none, s.error Diagnostic.no_video_stream⟩
  else
  let stream_index := ret
  match ifmt_ctx.streams[stream_index.toNat]? with
  | none => Except.error Fault.stream_index_out_of_range
  | some video_stream =>
  match lib.avcodec_find_decoder video_stream.codecpar.codec_id with
  | none =>
    let s := s.record Stage.decoder_lookup (Outcome.ptr false)
    Except.ok ⟨AVERROR_DECODER_NOT_FOUND, some ifmt_ctx, none,
      s.error (Diagnostic.decoder_not_found video_stream.codecpar.codec_id)⟩
  | some decoder =>
  let s := s.record Stage.decoder_lookup (Outcome.ptr true)
  if lib.avcodec_alloc_context3 decoder = false then
    let s := s.record Stage.context_alloc (Outcome.ptr false)
    Except.ok ⟨AVERROR ENOMEM, some ifmt_ctx, none, s.error Diagnostic.alloc_context⟩
  else
  let s := (s.record Stage.context_alloc (Outcome.ptr true)).acquire Resource.decoding_context
  negotiate_and_finish lib hw_type hw_ctx ifmt_ctx stream_index video_stream decoder
    (AVCodecContext.fresh decoder) s

/-! ## Vocabulary of the statements -/

/-- Stages 1 to 3 succeed on `in_fpath`: the input opens, the probe succeeds and leaves the
context `ifmt_ctx`, the selector returns the index `stream_index` of the stream
`video_stream`, a decoder `decoder` is found for that stream's codec identifier, and the
decoding context is allocated. -/
structure Prepared (lib : Lib) (in_fpath : String) (ifmt_ctx : AVFormatContext)
    (stream_index : Int) (video_stream : AVStream) (decoder : AVCodec) : Prop where
  opened : 0 ≤ (lib.avformat_open_input in_fpath).1
  probed : 0 ≤ (lib.avformat_find_stream_info (lib.avformat_open_input in_fpath).2).1
  context : (lib.avformat_find_stream_info (lib.avformat_open_input in_fpath).2).2 = ifmt_ctx
  selected : lib.av_find_best_stream ifmt_ctx = stream_index
  index_nonneg : 0 ≤ stream_index
  stream : ifmt_ctx.streams[stream_index.toNat]? = some video_stream
  decoder_found : lib.avcodec_find_decoder video_stream.codecpar.codec_id = some decoder
  allocated : lib.avcodec_alloc_context3 decoder = true

/-- The process state when stages 1 to 3 have succeeded from state `s`: five stages recorded,
the Input Source and the Decoding Context held. -/
def Proc.prepared (s : Proc) (lib : Lib) (in_fpath : String) (ifmt_ctx : AVFormatContext) :
    Proc :=
  { s with
    events := s.events ++
      [ Event.mk Stage.open_input (Outcome.ret (lib.avformat_open_input in_fpath).1),
        Event.mk Stage.stream_probe
          (Outcome.ret (lib.avformat_find_stream_info (lib.avformat_open_input in_fpath).2).1),
        Event.mk Stage.stream_select (Outcome.ret (lib.av_find_best_stream ifmt_ctx)),
        Event.mk Stage.decoder_lookup (Outcome.ptr true),
        Event.mk Stage.context_alloc (Outcome.ptr true) ],
    live := Resource.decoding_context :: Resource.input_source :: s.live }

/-- The library keeps its contract on stream indices for the input `in_fpath`: a
non-negative result of `av_find_best_stream` on the probed context indexes one of its
streams. -/
def IndexContract (lib : Lib) (in_fpath : String) : Prop :=
  0 ≤ lib.av_find_best_stream
      (lib.avformat_find_stream_info (lib.avformat_open_input in_fpath).2).2 →
    (lib.av_find_best_stream
      (lib.avformat_find_stream_info (lib.avformat_open_input in_fpath).2).2).toNat
      < (lib.avformat_find_stream_info (lib.avformat_open_input in_fpath).2).2.streams.length

/-- Entry `k` of the decoder's table is `config`, it qualifies for `hw_type`, and no entry
of smaller index does. -/
def FirstQualifying (decoder : AVCodec) (hw_type : Int) (k : Nat) (config : AVCodecHWConfig) :
    Prop :=
  decoder.hw_configs[k]? = some config ∧ qualifies config hw_type = true ∧
    ∀ (j : Nat) (c : AVCodecHWConfig), j < k → decoder.hw_configs[j]? = some c →
      qualifies c hw_type = false

/-- Position of a stage in the order of the sequence. -/
def Stage.rank : Stage → Nat
  | Stage.open_input => 0
  | Stage.stream_probe => 1
  | Stage.stream_select => 2
  | Stage.decoder_lookup => 3
  | Stage.context_alloc => 4
  | Stage.hw_negotiation => 5
  | Stage.parameter_copy => 6
  | Stage.decoder_open => 7

/-- A stage failed: it got a negative `int`, or a null pointer. -/
def Event.failed (e : Event) : Bool :=
  match e.outcome with
  | Outcome.ret code => decide (code < 0)
  | Outcome.ptr nonnull => !nonnull

/-- The code the sequence is to return when the stage of `e` is the one that failed: the
library's code for the five stages that get an `int`, a constant for the three others. -/
def Event.failure_code (e : Event) : Option Int :=
  match e.stage, e.outcome with
  | Stage.open_input, Outcome.ret code => some code
  | Stage.stream_probe, Outcome.ret code => some code
  | Stage.stream_select, Outcome.ret code => some code
  | Stage.parameter_copy, Outcome.ret code => some code
  | Stage.decoder_open, Outcome.ret code => some code
  | Stage.decoder_lookup, Outcome.ptr _ => some AVERROR_DECODER_NOT_FOUND
  | Stage.context_alloc, Outcome.ptr _ => some (AVERROR ENOMEM)
  | Stage.hw_negotiation, Outcome.ptr _ => some (AVERROR ENOSYS)
  | _, _ => none

/-- The stages a run executed: the events it added to those of the state it started from. -/
def Run.executed (before : Proc) (r : Run) : List Event :=
  r.proc.events.drop before.events.length

/-- The diagnostics a run logged. -/
def Run.logged (before : Proc) (r : Run) : List Diagnostic :=
  r.proc.log.drop before.log.length

/-- The first failing stage of a run, if any. -/
def Run.failed_stage (before : Proc) (r : Run) : Option Stage :=
  ((r.executed before).find? Event.failed).map Event.stage

/-- The failure kinds of the error taxonomy. -/
inductive FailureKind where
  | OpenInputFailed
  | StreamProbeFailed
  | NoVideoStream
  | DecoderNotFound
  | OutOfMemory
  | HwConfigUnsupported
  | HwFormatNotOffered
  | ParameterCopyFailed
  | DecoderOpenFailed
  deriving DecidableEq, Repr

/-- The failure kind of each stage. -/
def Stage.kind : Stage → FailureKind
  | Stage.open_input => FailureKind.OpenInputFailed
  | Stage.stream_probe => FailureKind.StreamProbeFailed
  | Stage.stream_select => FailureKind.NoVideoStream
  | Stage.decoder_lookup => FailureKind.DecoderNotFound
  | Stage.context_alloc => FailureKind.OutOfMemory
  | Stage.hw_negotiation => FailureKind.HwConfigUnsupported
  | Stage.parameter_copy => FailureKind.ParameterCopyFailed
  | Stage.decoder_open => FailureKind.DecoderOpenFailed

/-- The failure kind of a run: that of its first failing stage. -/
def Run.failure_kind (before : Proc) (r : Run) : Option FailureKind :=
  (r.failed_stage before).map Stage.kind

/-- The kinds whose code is a constant of the function rather than the library's code. -/
def FailureKind.fixed_code : FailureKind → Bool
  | FailureKind.DecoderNotFound => true
  | FailureKind.OutOfMemory => true
  | FailureKind.HwConfigUnsupported => true
  | _ => false

/-- The three output locations. -/
def Proc.outputs (s : Proc) : Option AVFormatContext × Option AVCodecContext × Int :=
  (s.fmt_ctx, s.dec_ctx, s.in_vstream_idx)

/-- The context as `configure_and_open` leaves it before `avcodec_open2`: parameters, time
bases and frame rate set from the stream. -/
def AVCodecContext.configured (codec_ctx : AVCodecContext) (lib : Lib)
    (ifmt_ctx : AVFormatContext) (video_stream : AVStream) : AVCodecContext :=
  { codec_ctx with
    par := some video_stream.codecpar,
    time_base := some video_stream.time_base,
    pkt_timebase := some video_stream.time_base,
    framerate := some (lib.av_guess_frame_rate ifmt_ctx video_stream) }

/-! ### What the library returns to each stage

The values below are read off the library alone, in the order the claim lists the stages;
the statements on the whole sequence compare the run of `init_decoder` with them. -/

/-- The code `avformat_open_input` returns on `in_fpath`. -/
def Lib.open_ret (lib : Lib) (in_fpath : String) : Int :=
  (lib.avformat_open_input in_fpath).1

/-- The code `avformat_find_stream_info` returns on the opened input. -/
def Lib.probe_ret (lib : Lib) (in_fpath : String) : Int :=
  (lib.avformat_find_stream_info (lib.avformat_open_input in_fpath).2).1

/-- The input as the probe leaves it. -/
def Lib.probed (lib : Lib) (in_fpath : String) : AVFormatContext :=
  (lib.avformat_find_stream_info (lib.avformat_open_input in_fpath).2).2

/-- The value `av_find_best_stream` returns on the probed input. -/
def Lib.select_ret (lib : Lib) (in_fpath : String) : Int :=
  lib.av_find_best_stream (lib.probed in_fpath)

/-- The three stages of the Container Opener and Stream Selector with what the library
returned to them. -/
def container_events (lib : Lib) (in_fpath : String) : List Event :=
  [ Event.mk Stage.open_input (Outcome.ret (lib.open_ret in_fpath)),
    Event.mk Stage.stream_probe (Outcome.ret (lib.probe_ret in_fpath)),
    Event.mk Stage.stream_select (Outcome.ret (lib.select_ret in_fpath)) ]

/-- The five stages up to the context allocation, decoder found and context allocated. -/
def prepared_events (lib : Lib) (in_fpath : String) : List Event :=
  container_events lib in_fpath ++
    [ Event.mk Stage.decoder_lookup (Outcome.ptr true),
      Event.mk Stage.context_alloc (Outcome.ptr true) ]

/-- The hardware negotiation stage of a run that gets past it: absent without a device
reference, successful with one. -/
def hw_events (hw_ctx : Option AVBufferRef) : List Event :=
  match hw_ctx with
  | none => []
  | some _ => [Event.mk Stage.hw_negotiation (Outcome.ptr true)]

/-- The Decoding Context as it reaches the parameter copy: freshly allocated without a device
reference; with one, holding what `av_buffer_ref` returned and the callback
`get_hw_format`. -/
def negotiated_context (lib : Lib) (hw_ctx : Option AVBufferRef) (decoder : AVCodec) :
    AVCodecContext :=
  match hw_ctx with
  | none => AVCodecContext.fresh decoder
  | some hw =>
    { AVCodecContext.fresh decoder with
      hw_device_ctx := if lib.av_buffer_ref hw then some hw else none,
      get_format := GetFormat.get_hw_format }

/-- The code `avcodec_parameters_to_context` returns on the negotiated context and the
selected stream's parameters. -/
def Lib.copy_ret (lib : Lib) (hw_ctx : Option AVBufferRef) (decoder : AVCodec)
    (video_stream : AVStream) : Int :=
  lib.avcodec_parameters_to_context (negotiated_context lib hw_ctx decoder)
    video_stream.codecpar

/-- The code `avcodec_open2` returns on the configured context. -/
def Lib.open2_ret (lib : Lib) (hw_ctx : Option AVBufferRef) (ifmt_ctx : AVFormatContext)
    (decoder : AVCodec) (video_stream : AVStream) : Int :=
  lib.avcodec_open2
    ((negotiated_context lib hw_ctx decoder).configured lib ifmt_ctx video_stream) decoder

/-! ## Sample data for the concrete runs -/

/-- A video stream with codec identifier 27 and time base 1/25. -/
def sample_stream : AVStream := ⟨⟨27, 0⟩, ⟨1, 25⟩⟩

/-- A decoder with four hardware configurations: one of device type 2 without the
device-context method (format 53), a device-context one of device type 3 (format 44), and
two device-context ones of device type 2 (formats 117 and 200, in that order). -/
def sample_decoder : AVCodec :=
  ⟨"h264", [⟨53, 2, 2⟩, ⟨44, 1, 3⟩, ⟨117, 3, 2⟩, ⟨200, 1, 2⟩]⟩

/-- A second decoder, whose only device-context configuration of device type 2 has format 46. -/
def other_decoder : AVCodec := ⟨"hevc", [⟨46, 1, 2⟩]⟩

/-- A library on which every call succeeds; codec identifier 27 has `sample_decoder`,
identifier 173 has `other_decoder`, no other identifier has a decoder. -/
def sample_lib : Lib where
  avformat_open_input := fun path => (0, ⟨path, []⟩)
  avformat_find_stream_info := fun c => (0, ⟨c.url, [sample_stream]⟩)
  av_find_best_stream := fun c => if c.streams.isEmpty then AVERROR_STREAM_NOT_FOUND else 0
  avcodec_find_decoder := fun id =>
    if id = 27 then some sample_decoder else if id = 173 then some other_decoder else none
  avcodec_alloc_context3 := fun _ => true
  av_buffer_ref := fun _ => true
  avcodec_parameters_to_context := fun _ _ => 0
  av_guess_frame_rate := fun _ _ => ⟨25, 1⟩
  avcodec_open2 := fun _ _ => 0

/-- A hardware device reference. -/
def sample_hw_ctx : AVBufferRef := ⟨1⟩

/-- The library `sample_lib`, except that the stream probe fails with `AVERROR_INVALIDDATA`. -/
def lib_probe_fails : Lib :=
  { sample_lib with avformat_find_stream_info := fun c => (AVERROR_INVALIDDATA, c) }

/-- The library `sample_lib`, except that opening the input fails with `AVERROR(ENOMEM)`. -/
def lib_open_enomem : Lib :=
  { sample_lib with avformat_open_input := fun path => (AVERROR ENOMEM, ⟨path, []⟩) }

/-- The library `sample_lib`, except that `avcodec_alloc_context3` returns null. -/
def lib_alloc_fails : Lib :=
  { sample_lib with avcodec_alloc_context3 := fun _ => false }

/-- The library `sample_lib`, except that `avcodec_open2` fails with `AVERROR(EINVAL)`. -/
def lib_open2_fails : Lib :=
  { sample_lib with avcodec_open2 := fun _ _ => -22 }

/-- A video stream with codec identifier 173. -/
def other_stream : AVStream := ⟨⟨173, 0⟩, ⟨1, 30⟩⟩

/-- The library `sample_lib`, except that the probed input has the one stream `other_stream`. -/
def lib_other : Lib :=
  { sample_lib with avformat_find_stream_info := fun c => (0, ⟨c.url, [other_stream]⟩) }

/-! ## Lemmas on the configuration loop -/

theorem hw_config_loop_found (decoder : AVCodec) (hw_type : Int) (k : Nat)
    (config : AVCodecHWConfig) (hk : decoder.hw_configs[k]? = some config)
    (hq : qualifies config hw_type = true)
    (hlt : ∀ j c, j < k → decoder.hw_configs[j]? = some c → qualifies c hw_type = false) :
    ∀ fuel i, i ≤ k → k - i < fuel →
      hw_config_loop decoder hw_type fuel i = some (HwScan.found k config.pix_fmt) := by
  intro fuel
  induction fuel with
  | zero => intro i _ h; omega
  | succ n ih =>
    intro i hik hf
    rcases Nat.eq_or_lt_of_le hik with h | h
    · subst h
      simp [hw_config_loop, avcodec_get_hw_config, hk, hq]
    · have hlen : k < decoder.hw_configs.length := by
        rcases List.getElem?_eq_some.mp hk with ⟨h1, _⟩
        exact h1
      have hi : i < decoder.hw_configs.length := by omega
      have hget : decoder.hw_configs[i]? = some decoder.hw_configs[i] :=
        List.getElem?_eq_getElem hi
      have hnq := hlt i _ h hget
      simp only [hw_config_loop, avcodec_get_hw_config, hget, hnq]
      simpa using ih (i + 1) (by omega) (by omega)

theorem hw_config_loop_unsupported (decoder : AVCodec) (hw_type : Int)
    (hno : ∀ c ∈ decoder.hw_configs, qualifies c hw_type = false) :
    ∀ fuel i, i ≤ decoder.hw_configs.length → decoder.hw_configs.length - i < fuel →
      hw_config_loop decoder hw_type fuel i
        = some (HwScan.unsupported decoder.hw_configs.length) := by
  intro fuel
  induction fuel with
  | zero => intro i _ h; omega
  | succ n ih =>
    intro i hil hf
    rcases Nat.eq_or_lt_of_le hil with h | h
    · subst h
      simp [hw_config_loop, avcodec_get_hw_config]
    · have hget : decoder.hw_configs[i]? = some decoder.hw_configs[i] :=
        List.getElem?_eq_getElem h
      have hnq := hno _ (List.getElem_mem h)
      simp only [hw_config_loop, avcodec_get_hw_config, hget, hnq]
      simpa using ih (i + 1) (by omega) (by omega)

theorem hw_config_loop_isSome (decoder : AVCodec) (hw_type : Int) :
    ∀ fuel i, decoder.hw_configs.length - i < fuel →
      (hw_config_loop decoder hw_type fuel i).isSome = true := by
  intro fuel
  induction fuel with
  | zero => intro i h; omega
  | succ n ih =>
    intro i hf
    simp only [hw_config_loop]
    cases hget : avcodec_get_hw_config decoder i with
    | none => simp
    | some c =>
      have hi : i < decoder.hw_configs.length := by
        unfold avcodec_get_hw_config at hget
        rcases List.getElem?_eq_some.mp hget with ⟨h1, _⟩
        exact h1
      by_cases hq : qualifies c hw_type = true
      · simp [hq]
      · simp only [hq]
        simpa using ih (i + 1) (by omega)

theorem exists_first_qualifying (hw_type : Int) :
    ∀ configs : List AVCodecHWConfig, (∃ c ∈ configs, qualifies c hw_type = true) →
      ∃ (k : Nat) (config : AVCodecHWConfig),
        configs[k]? = some config ∧ qualifies config hw_type = true ∧
        ∀ (j : Nat) (c : AVCodecHWConfig), j < k → configs[j]? = some c →
          qualifies c hw_type = false := by
  intro configs
  induction configs with
  | nil => rintro ⟨c, hc, _⟩; simp at hc
  | cons a rest ih =>
    rintro ⟨c, hc, hq⟩
    by_cases ha : qualifies a hw_type = true
    · exact ⟨0, a, by simp, ha, fun j c hj => by omega⟩
    · have hrest : ∃ c ∈ rest, qualifies c hw_type = true := by
        rcases List.mem_cons.mp hc with h | h
        · subst h; exact absurd hq ha
        · exact ⟨c, h, hq⟩
      obtain ⟨k, config, hk, hqk, hmin⟩ := ih hrest
      refine ⟨k + 1, config, by simpa using hk, hqk, ?_⟩
      intro j c hj hjc
      cases j with
      | zero =>
        simp at hjc
        subst hjc
        simpa using ha
      | succ j => exact hmin j c (by omega) (by simpa using hjc)

theorem configure_and_open_hw_pix_fmt (lib : Lib) (ifmt_ctx : AVFormatContext)
    (stream_index : Int) (video_stream : AVStream) (decoder : AVCodec)
    (codec_ctx : AVCodecContext) (s : Proc) :
    (configure_and_open lib ifmt_ctx stream_index video_stream decoder codec_ctx s).proc.hw_pix_fmt
      = s.hw_pix_fmt := by
  unfold configure_and_open
  simp only []
  split_ifs <;> simp [Proc.record, Proc.error]

theorem configure_and_open_events_prefix (lib : Lib) (ifmt_ctx : AVFormatContext)
    (stream_index : Int) (video_stream : AVStream) (decoder : AVCodec)
    (codec_ctx : AVCodecContext) (s : Proc) :
    ∃ evs, (configure_and_open lib ifmt_ctx stream_index video_stream decoder codec_ctx
      s).proc.events = s.events ++ evs := by
  unfold configure_and_open
  simp only []
  split_ifs <;> simp [Proc.record, Proc.error]

/-! ## Lemmas on the sequence -/

theorem init_decoder_prepared {lib : Lib} {in_fpath : String} {ifmt_ctx : AVFormatContext}
    {stream_index : Int} {video_stream : AVStream} {decoder : AVCodec}
    (hp : Prepared lib in_fpath ifmt_ctx stream_index video_stream decoder)
    (hw_type : Int) (hw_ctx : Option AVBufferRef) (s : Proc) :
    init_decoder lib hw_type hw_ctx in_fpath s =
      negotiate_and_finish lib hw_type hw_ctx ifmt_ctx stream_index video_stream decoder
        (AVCodecContext.fresh decoder) (s.prepared lib in_fpath ifmt_ctx) := by
  obtain ⟨h1, h2, h3, h4, h5, h6, h7, h8⟩ := hp
  subst h3
  have h5' : 0 ≤ lib.av_find_best_stream
      (lib.avformat_find_stream_info (lib.avformat_open_input in_fpath).2).2 := by
    rw [h4]; exact h5
  subst h4
  simp only [init_decoder, not_lt.mpr h1, not_lt.mpr h2, not_lt.mpr h5', if_false, h6, h7, h8]
  simp [Proc.prepared, Proc.record, Proc.acquire]

theorem sample_prepared (in_fpath : String) :
    Prepared sample_lib in_fpath ⟨in_fpath, [sample_stream]⟩ 0 sample_stream sample_decoder :=
  ⟨Int.le_refl 0, Int.le_refl 0, rfl, rfl, Int.le_refl 0, rfl, rfl, rfl⟩

theorem failed_ret_of_nonneg (st : Stage) {c : Int} (h : 0 ≤ c) :
    Event.failed ⟨st, Outcome.ret c⟩ = false := by
  simp [Event.failed, h]

theorem failed_ptr (st : Stage) (b : Bool) : Event.failed ⟨st, Outcome.ptr b⟩ = !b := rfl

theorem AVERROR_DECODER_NOT_FOUND_neg : AVERROR_DECODER_NOT_FOUND < 0 := by decide

theorem AVERROR_ENOMEM_neg : AVERROR ENOMEM < 0 := by decide

theorem AVERROR_ENOSYS_neg : AVERROR ENOSYS < 0 := by decide

theorem negotiate_and_finish_defined (lib : Lib) (hw_type : Int) (hw_ctx : Option AVBufferRef)
    (ifmt_ctx : AVFormatContext) (stream_index : Int) (video_stream : AVStream)
    (decoder : AVCodec) (codec_ctx : AVCodecContext) (s : Proc) :
    ∃ r, negotiate_and_finish lib hw_type hw_ctx ifmt_ctx stream_index video_stream decoder
      codec_ctx s = Except.ok r := by
  unfold negotiate_and_finish
  have hsome := hw_config_loop_isSome decoder hw_type (decoder.hw_configs.length + 1) 0
    (by omega)
  split
  · exact ⟨_, rfl⟩
  · simp only []
    split
    · next hnone => rw [hnone] at hsome; simp at hsome
    · exact ⟨_, rfl⟩
    · exact ⟨_, rfl⟩

theorem init_decoder_defined (lib : Lib) (hw_type : Int) (hw_ctx : Option AVBufferRef)
    (in_fpath : String) (s : Proc) (hc : IndexContract lib in_fpath) :
    ∃ r, init_decoder lib hw_type hw_ctx in_fpath s = Except.ok r := by
  unfold init_decoder
  simp only []
  split
  · exact ⟨_, rfl⟩
  split
  · exact ⟨_, rfl⟩
  split
  · exact ⟨_, rfl⟩
  · next hneg =>
    split
    · next hnone =>
      exfalso
      have hlt := hc (not_lt.mp hneg)
      have := List.getElem?_eq_none_iff.mp hnone
      omega
    · split
      · exact ⟨_, rfl⟩
      · split
        · exact ⟨_, rfl⟩
        · exact negotiate_and_finish_defined _ _ _ _ _ _ _ _ _

set_option maxHeartbeats 4000000 in
theorem init_decoder_run_facts (lib : Lib) (hw_type : Int) (hw_ctx : Option AVBufferRef)
    (in_fpath : String) (s : Proc) (r : Run)
    (h : init_decoder lib hw_type hw_ctx in_fpath s = Except.ok r) :
    ((r.executed s).map (fun e => e.stage.rank)).Pairwise (· < ·) ∧
    (∀ e ∈ (r.executed s).dropLast, e.failed = false) ∧
    (r.ret = 0 ↔ ∀ e ∈ r.executed s, e.failed = false) ∧
    (r.ret ≠ 0 → r.ret < 0 ∧ r.proc.outputs = s.outputs ∧ (∃ d, r.logged s = [d]) ∧
      ∃ e, (r.executed s).getLast? = some e ∧ (r.executed s).find? Event.failed = some e ∧
        e.failure_code = some r.ret) ∧
    (r.ret = 0 → r.logged s = [] ∧ r.proc.fmt_ctx = r.ifmt_ctx ∧ r.proc.dec_ctx = r.codec_ctx ∧
      r.ifmt_ctx.isSome = true ∧
      (∃ code, 0 ≤ code ∧ Event.mk Stage.decoder_open (Outcome.ret code) ∈ r.executed s) ∧
      ∃ c, r.codec_ctx = some c ∧ c.is_open = true ∧ c.par.isSome = true ∧
        c.time_base.isSome = true) ∧
    (hw_ctx = none → r.proc.hw_pix_fmt = s.hw_pix_fmt ∧
      (∀ e ∈ r.executed s, e.stage ≠ Stage.hw_negotiation) ∧
      (∀ c, r.codec_ctx = some c →
        c.hw_device_ctx = none ∧ c.get_format = GetFormat.library_default) ∧
      (∀ name t, Diagnostic.hw_unsupported name t ∉ r.logged s) ∧
      r.proc.live.count Resource.hw_device_ref = s.live.count Resource.hw_device_ref) := by
  unfold init_decoder negotiate_and_finish configure_and_open at h
  simp only [] at h
  repeat' (split at h)
  all_goals (first | (cases h; done) | skip)
  all_goals simp only [Except.ok.injEq] at h
  all_goals subst h
  all_goals simp only [Run.executed, Run.logged, Proc.record, Proc.error, Proc.acquire,
    Proc.release, avcodec_free_context, avformat_close_input, List.append_assoc,
    List.singleton_append, List.cons_append, List.nil_append, List.drop_left, apply_ite]
  all_goals
    have hd := AVERROR_DECODER_NOT_FOUND_neg
    have hm := AVERROR_ENOMEM_neg
    have hs := AVERROR_ENOSYS_neg
    simp only [AVCodecContext.fresh] at *
    simp [Stage.rank, Event.failed, Event.failure_code, Proc.outputs, *]
  all_goals omega

theorem configure_and_open_codec_ctx (lib : Lib) (ifmt_ctx : AVFormatContext)
    (stream_index : Int) (video_stream : AVStream) (decoder : AVCodec)
    (codec_ctx : AVCodecContext) (s : Proc) :
    ∃ c, (configure_and_open lib ifmt_ctx stream_index video_stream decoder codec_ctx
        s).codec_ctx = some c ∧
      c.codec = codec_ctx.codec ∧ c.hw_device_ctx = codec_ctx.hw_device_ctx ∧
      c.get_format = codec_ctx.get_format := by
  unfold configure_and_open
  simp only []
  split_ifs <;> simp

theorem get_hw_format_eq (f : Int) (pix_fmts : List Int) (hs : SentinelTerminated pix_fmts) :
    get_hw_format f pix_fmts =
      if f ∈ candidates pix_fmts then some (f, [])
      else some (AV_PIX_FMT_NONE, [Diagnostic.hw_surface_format]) := by
  induction pix_fmts with
  | nil => simp [SentinelTerminated] at hs
  | cons p rest ih =>
    by_cases hp : p = AV_PIX_FMT_NONE
    · subst hp
      simp [get_hw_format, candidates]
    · by_cases hpf : p = f
      · subst hpf
        simp [get_hw_format, candidates, hp]
      · have hs2 : SentinelTerminated rest := by
          unfold SentinelTerminated at hs ⊢
          rcases List.mem_cons.mp hs with h | h
          · exact absurd h.symm hp
          · exact h
        have hfp : ¬ f = p := fun h => hpf h.symm
        have := ih hs2
        simp only [candidates] at this
        simp [get_hw_format, candidates, hp, hpf, hfp, this]

theorem sample_index_contract : IndexContract sample_lib "in.mp4" := by unfold IndexContract; decide

theorem kind_ne_hw_of_stage_ne {st : Stage} (h : st ≠ Stage.hw_negotiation) :
    st.kind ≠ FailureKind.HwConfigUnsupported := by
  cases st <;> simp [Stage.kind] at h ⊢

theorem fixed_kind_ret (lib : Lib) (hw_type : Int) (hw_ctx : Option AVBufferRef)
    (in_fpath : String) (s : Proc) (r : Run)
    (h : init_decoder lib hw_type hw_ctx in_fpath s = Except.ok r) (k : FailureKind)
    (hk : r.failure_kind s = some k) :
    (k = FailureKind.DecoderNotFound → r.ret = AVERROR_DECODER_NOT_FOUND) ∧
    (k = FailureKind.OutOfMemory → r.ret = AVERROR ENOMEM) ∧
    (k = FailureKind.HwConfigUnsupported → r.ret = AVERROR ENOSYS) := by
  obtain ⟨_, _, hzero, hfail, _⟩ := init_decoder_run_facts lib hw_type hw_ctx in_fpath s r h
  simp only [Run.failure_kind, Run.failed_stage, Option.map_eq_some'] at hk
  obtain ⟨st, ⟨e, hfind, hst⟩, hkind⟩ := hk
  have hne : r.ret ≠ 0 := by
    intro h0
    have := hzero.mp h0 e (List.mem_of_find?_eq_some hfind)
    have := List.find?_some hfind
    simp_all
  obtain ⟨_, _, _, e', _, hfind', hcode⟩ := hfail hne
  rw [hfind] at hfind'
  cases hfind'
  subst hst hkind
  obtain ⟨st, o⟩ := e
  cases st <;> cases o <;> simp_all [Event.failure_code, Stage.kind]

theorem open2_fails_prepared (in_fpath : String) :
    Prepared lib_open2_fails in_fpath ⟨in_fpath, [sample_stream]⟩ 0 sample_stream
      sample_decoder :=
  ⟨Int.le_refl 0, Int.le_refl 0, rfl, rfl, Int.le_refl 0, rfl, rfl, rfl⟩

theorem other_prepared (in_fpath : String) :
    Prepared lib_other in_fpath ⟨in_fpath, [other_stream]⟩ 0 other_stream other_decoder :=
  ⟨Int.le_refl 0, Int.le_refl 0, rfl, rfl, Int.le_refl 0, rfl, rfl, rfl⟩

theorem init_decoder_negotiated {lib : Lib} {in_fpath : String} {ifmt_ctx : AVFormatContext}
    {stream_index : Int} {video_stream : AVStream} {decoder : AVCodec}
    (hp : Prepared lib in_fpath ifmt_ctx stream_index video_stream decoder)
    (hw_type : Int) (hw : AVBufferRef) (s : Proc) {k : Nat} {config : AVCodecHWConfig}
    (hfirst : FirstQualifying decoder hw_type k config) :
    ∃ r, init_decoder lib hw_type (some hw) in_fpath s = Except.ok r ∧
      r.proc.hw_pix_fmt = config.pix_fmt ∧
      ∃ c, r.codec_ctx = some c ∧ c.get_format = GetFormat.get_hw_format := by
  obtain ⟨hk, hq, hmin⟩ := hfirst
  have hklen : k < decoder.hw_configs.length := (List.getElem?_eq_some.mp hk).1
  have hloop := hw_config_loop_found decoder hw_type k config hk hq hmin
    (decoder.hw_configs.length + 1) 0 (Nat.zero_le _) (by omega)
  rw [init_decoder_prepared hp]
  simp only [negotiate_and_finish, hloop]
  refine ⟨_, rfl, ?_, ?_⟩
  · rw [configure_and_open_hw_pix_fmt]
  · obtain ⟨c, hc, _, _, hfmt⟩ := configure_and_open_codec_ctx lib ifmt_ctx stream_index
      video_stream decoder
      { AVCodecContext.fresh decoder with
        hw_device_ctx := if lib.av_buffer_ref hw then some hw else none,
        get_format := GetFormat.get_hw_format }
      { (if lib.av_buffer_ref hw then
          (s.prepared lib in_fpath ifmt_ctx).acquire Resource.hw_device_ref
         else s.prepared lib in_fpath ifmt_ctx).record Stage.hw_negotiation
            (Outcome.ptr true) with hw_pix_fmt := config.pix_fmt }
    exact ⟨c, hc, hfmt⟩

theorem sample_first_qualifying : FirstQualifying sample_decoder 2 2 ⟨117, 3, 2⟩ := by
  refine ⟨rfl, rfl, ?_⟩
  intro j c hj hjc
  interval_cases j <;> simp [sample_decoder] at hjc <;> subst hjc <;> rfl

theorem other_first_qualifying : FirstQualifying other_decoder 2 0 ⟨46, 1, 2⟩ :=
  ⟨rfl, rfl, fun j _ hj _ => absurd hj (Nat.not_lt_zero j)⟩

theorem executed_of_events {s : Proc} {r : Run} {evs : List Event}
    (h : r.proc.events = s.events ++ evs) : r.executed s = evs := by
  simp [Run.executed, h]

theorem configure_and_open_result (lib : Lib) (ifmt_ctx : AVFormatContext)
    (stream_index : Int) (video_stream : AVStream) (decoder : AVCodec)
    (codec_ctx : AVCodecContext) (s : Proc) :
    (lib.avcodec_parameters_to_context codec_ctx video_stream.codecpar < 0 →
      (configure_and_open lib ifmt_ctx stream_index video_stream decoder codec_ctx s).ret
        = lib.avcodec_parameters_to_context codec_ctx video_stream.codecpar ∧
      (configure_and_open lib ifmt_ctx stream_index video_stream decoder codec_ctx s).proc.events
        = s.events ++
          [Event.mk Stage.parameter_copy
            (Outcome.ret (lib.avcodec_parameters_to_context codec_ctx video_stream.codecpar))]) ∧
    (0 ≤ lib.avcodec_parameters_to_context codec_ctx video_stream.codecpar →
      lib.avcodec_open2 (codec_ctx.configured lib ifmt_ctx video_stream) decoder < 0 →
      (configure_and_open lib ifmt_ctx stream_index video_stream decoder codec_ctx s).ret
        = lib.avcodec_open2 (codec_ctx.configured lib ifmt_ctx video_stream) decoder ∧
      (configure_and_open lib ifmt_ctx stream_index video_stream decoder codec_ctx s).proc.events
        = s.events ++
          [Event.mk Stage.parameter_copy
            (Outcome.ret (lib.avcodec_parameters_to_context codec_ctx video_stream.codecpar)),
           Event.mk Stage.decoder_open
            (Outcome.ret
              (lib.avcodec_open2 (codec_ctx.configured lib ifmt_ctx video_stream) decoder))]) ∧
    (0 ≤ lib.avcodec_parameters_to_context codec_ctx video_stream.codecpar →
      0 ≤ lib.avcodec_open2 (codec_ctx.configured lib ifmt_ctx video_stream) decoder →
      (configure_and_open lib ifmt_ctx stream_index video_stream decoder codec_ctx s).ret = 0 ∧
      (configure_and_open lib ifmt_ctx stream_index video_stream decoder codec_ctx s).proc.events
        = s.events ++
          [Event.mk Stage.parameter_copy
            (Outcome.ret (lib.avcodec_parameters_to_context codec_ctx video_stream.codecpar)),
           Event.mk Stage.decoder_open
            (Outcome.ret
              (lib.avcodec_open2 (codec_ctx.configured lib ifmt_ctx video_stream) decoder))]) := by
  simp only [configure_and_open, AVCodecContext.configured]
  refine ⟨fun h1 => ?_, fun h1 h2 => ?_, fun h1 h2 => ?_⟩
  · simp [h1, Proc.record, Proc.error]
  · simp [not_lt.mpr h1, h2, Proc.record, Proc.error]
  · simp [not_lt.mpr h1, not_lt.mpr h2, Proc.record, Proc.error]

theorem prepared_proc_events {lib : Lib} {in_fpath : String} {ifmt_ctx : AVFormatContext}
    {stream_index : Int} {video_stream : AVStream} {decoder : AVCodec}
    (hp : Prepared lib in_fpath ifmt_ctx stream_index video_stream decoder) (s : Proc) :
    (s.prepared lib in_fpath ifmt_ctx).events = s.events ++ prepared_events lib in_fpath := by
  have h3 := hp.context
  subst h3
  simp [Proc.prepared, prepared_events, container_events, Lib.open_ret, Lib.probe_ret,
    Lib.select_ret, Lib.probed]

/-- The run of `init_decoder`, stage by stage, in terms of what the library returns. -/
theorem init_decoder_stage_table (lib : Lib) (hw_type : Int) (hw_ctx : Option AVBufferRef)
    (in_fpath : String) (s : Proc) (r : Run)
    (h : init_decoder lib hw_type hw_ctx in_fpath s = Except.ok r) :
    (lib.open_ret in_fpath < 0 →
      r.ret = lib.open_ret in_fpath ∧
      r.executed s = (container_events lib in_fpath).take 1) ∧
    (0 ≤ lib.open_ret in_fpath → lib.probe_ret in_fpath < 0 →
      r.ret = lib.probe_ret in_fpath ∧
      r.executed s = (container_events lib in_fpath).take 2) ∧
    (0 ≤ lib.open_ret in_fpath → 0 ≤ lib.probe_ret in_fpath → lib.select_ret in_fpath < 0 →
      r.ret = lib.select_ret in_fpath ∧
      r.executed s = container_events lib in_fpath) ∧
    (∀ video_stream : AVStream,
      0 ≤ lib.open_ret in_fpath → 0 ≤ lib.probe_ret in_fpath → 0 ≤ lib.select_ret in_fpath →
      (lib.probed in_fpath).streams[(lib.select_ret in_fpath).toNat]? = some video_stream →
      lib.avcodec_find_decoder video_stream.codecpar.codec_id = none →
      r.ret = AVERROR_DECODER_NOT_FOUND ∧
      r.executed s = container_events lib in_fpath ++
        [Event.mk Stage.decoder_lookup (Outcome.ptr false)]) ∧
    (∀ (video_stream : AVStream) (decoder : AVCodec),
      0 ≤ lib.open_ret in_fpath → 0 ≤ lib.probe_ret in_fpath → 0 ≤ lib.select_ret in_fpath →
      (lib.probed in_fpath).streams[(lib.select_ret in_fpath).toNat]? = some video_stream →
      lib.avcodec_find_decoder video_stream.codecpar.codec_id = some decoder →
      lib.avcodec_alloc_context3 decoder = false →
      r.ret = AVERROR ENOMEM ∧
      r.executed s = container_events lib in_fpath ++
        [Event.mk Stage.decoder_lookup (Outcome.ptr true),
         Event.mk Stage.context_alloc (Outcome.ptr false)]) ∧
    (∀ (ifmt_ctx : AVFormatContext) (stream_index : Int) (video_stream : AVStream)
        (decoder : AVCodec) (hw : AVBufferRef),
      Prepared lib in_fpath ifmt_ctx stream_index video_stream decoder →
      hw_ctx = some hw → (∀ c ∈ decoder.hw_configs, qualifies c hw_type = false) →
      r.ret = AVERROR ENOSYS ∧
      r.executed s = prepared_events lib in_fpath ++
        [Event.mk Stage.hw_negotiation (Outcome.ptr false)]) ∧
    (∀ (ifmt_ctx : AVFormatContext) (stream_index : Int) (video_stream : AVStream)
        (decoder : AVCodec),
      Prepared lib in_fpath ifmt_ctx stream_index video_stream decoder →
      (hw_ctx = none ∨ ∃ c ∈ decoder.hw_configs, qualifies c hw_type = true) →
      (lib.copy_ret hw_ctx decoder video_stream < 0 →
        r.ret = lib.copy_ret hw_ctx decoder video_stream ∧
        r.executed s = prepared_events lib in_fpath ++ hw_events hw_ctx ++
          [Event.mk Stage.parameter_copy
            (Outcome.ret (lib.copy_ret hw_ctx decoder video_stream))]) ∧
      (0 ≤ lib.copy_ret hw_ctx decoder video_stream →
        lib.open2_ret hw_ctx ifmt_ctx decoder video_stream < 0 →
        r.ret = lib.open2_ret hw_ctx ifmt_ctx decoder video_stream ∧
        r.executed s = prepared_events lib in_fpath ++ hw_events hw_ctx ++
          [Event.mk Stage.parameter_copy
            (Outcome.ret (lib.copy_ret hw_ctx decoder video_stream)),
           Event.mk Stage.decoder_open
            (Outcome.ret (lib.open2_ret hw_ctx ifmt_ctx decoder video_stream))]) ∧
      (0 ≤ lib.copy_ret hw_ctx decoder video_stream →
        0 ≤ lib.open2_ret hw_ctx ifmt_ctx decoder video_stream →
        r.ret = 0 ∧
        r.executed s = prepared_events lib in_fpath ++ hw_events hw_ctx ++
          [Event.mk Stage.parameter_copy
            (Outcome.ret (lib.copy_ret hw_ctx decoder video_stream)),
           Event.mk Stage.decoder_open
            (Outcome.ret (lib.open2_ret hw_ctx ifmt_ctx decoder video_stream))])) := by
  refine ⟨?_, ?_, ?_, ?_, ?_, ?_, ?_⟩
  · intro h1
    simp only [Lib.open_ret] at h1
    simp only [init_decoder, h1, if_true, Except.ok.injEq] at h
    subst h
    simp [Run.executed, Proc.record, Proc.error, container_events, Lib.open_ret]
  · intro h1 h2
    simp only [Lib.open_ret, Lib.probe_ret] at h1 h2
    simp only [init_decoder, not_lt.mpr h1, h2, if_true, if_false, Except.ok.injEq] at h
    subst h
    simp [Run.executed, Proc.record, Proc.error, Proc.acquire, container_events, Lib.open_ret,
      Lib.probe_ret]
  · intro h1 h2 h3
    simp only [Lib.open_ret, Lib.probe_ret, Lib.select_ret, Lib.probed] at h1 h2 h3
    simp only [init_decoder, not_lt.mpr h1, not_lt.mpr h2, h3, if_true, if_false,
      Except.ok.injEq] at h
    subst h
    simp [Run.executed, Proc.record, Proc.error, Proc.acquire, container_events, Lib.open_ret,
      Lib.probe_ret, Lib.select_ret, Lib.probed]
  · intro video_stream h1 h2 h3 hvs hnone
    simp only [Lib.open_ret, Lib.probe_ret, Lib.select_ret, Lib.probed] at h1 h2 h3 hvs
    simp only [init_decoder, not_lt.mpr h1, not_lt.mpr h2, not_lt.mpr h3, if_false, hvs, hnone,
      Except.ok.injEq] at h
    subst h
    simp [Run.executed, Proc.record, Proc.error, Proc.acquire, container_events, Lib.open_ret,
      Lib.probe_ret, Lib.select_ret, Lib.probed]
  · intro video_stream decoder h1 h2 h3 hvs hdec halloc
    simp only [Lib.open_ret, Lib.probe_ret, Lib.select_ret, Lib.probed] at h1 h2 h3 hvs
    simp only [init_decoder, not_lt.mpr h1, not_lt.mpr h2, not_lt.mpr h3, if_false, hvs, hdec,
      halloc, if_true, Except.ok.injEq] at h
    subst h
    simp [Run.executed, Proc.record, Proc.error, Proc.acquire, container_events, Lib.open_ret,
      Lib.probe_ret, Lib.select_ret, Lib.probed]
  · intro ifmt_ctx stream_index video_stream decoder hw hp hhw hno
    subst hhw
    have hloop := hw_config_loop_unsupported decoder hw_type hno
      (decoder.hw_configs.length + 1) 0 (Nat.zero_le _) (by omega)
    have hev := prepared_proc_events hp s
    rw [init_decoder_prepared hp] at h
    simp only [negotiate_and_finish, hloop, Except.ok.injEq] at h
    subst h
    refine ⟨rfl, executed_of_events ?_⟩
    cases hb : lib.av_buffer_ref hw <;>
      simp [Proc.record, Proc.error, Proc.acquire, Proc.release, avcodec_free_context,
        avformat_close_input, hev]
  · intro ifmt_ctx stream_index video_stream decoder hp hpass
    have hev := prepared_proc_events hp s
    rw [init_decoder_prepared hp] at h
    cases hw_ctx with
    | none =>
      simp only [negotiate_and_finish, Except.ok.injEq] at h
      subst h
      obtain ⟨c1, c2, c3⟩ := configure_and_open_result lib ifmt_ctx stream_index video_stream
        decoder (AVCodecContext.fresh decoder) (s.prepared lib in_fpath ifmt_ctx)
      simp only [Lib.copy_ret, Lib.open2_ret, negotiated_context, hw_events, List.append_nil]
      refine ⟨fun h1 => ⟨(c1 h1).1, executed_of_events ?_⟩,
        fun h1 h2 => ⟨(c2 h1 h2).1, executed_of_events ?_⟩,
        fun h1 h2 => ⟨(c3 h1 h2).1, executed_of_events ?_⟩⟩
      · rw [(c1 h1).2, hev, List.append_assoc]
      · rw [(c2 h1 h2).2, hev, List.append_assoc]
      · rw [(c3 h1 h2).2, hev, List.append_assoc]
    | some hw =>
      have hex : ∃ c ∈ decoder.hw_configs, qualifies c hw_type = true := by
        rcases hpass with h0 | h0
        · cases h0
        · exact h0
      obtain ⟨k, config, hk, hq, hmin⟩ := exists_first_qualifying hw_type decoder.hw_configs hex
      have hklen : k < decoder.hw_configs.length := (List.getElem?_eq_some.mp hk).1
      have hloop := hw_config_loop_found decoder hw_type k config hk hq hmin
        (decoder.hw_configs.length + 1) 0 (Nat.zero_le _) (by omega)
      simp only [negotiate_and_finish, hloop, Except.ok.injEq] at h
      subst h
      obtain ⟨c1, c2, c3⟩ := configure_and_open_result lib ifmt_ctx stream_index video_stream
        decoder
        { AVCodecContext.fresh decoder with
          hw_device_ctx := if lib.av_buffer_ref hw then some hw else none,
          get_format := GetFormat.get_hw_format }
        { (if lib.av_buffer_ref hw then
            (s.prepared lib in_fpath ifmt_ctx).acquire Resource.hw_device_ref
           else s.prepared lib in_fpath ifmt_ctx).record Stage.hw_negotiation
              (Outcome.ptr true) with hw_pix_fmt := config.pix_fmt }
      have hev2 : ({ (if lib.av_buffer_ref hw then
            (s.prepared lib in_fpath ifmt_ctx).acquire Resource.hw_device_ref
           else s.prepared lib in_fpath ifmt_ctx).record Stage.hw_negotiation
              (Outcome.ptr true) with hw_pix_fmt := config.pix_fmt } : Proc).events
          = s.events ++ (prepared_events lib in_fpath ++
              [Event.mk Stage.hw_negotiation (Outcome.ptr true)]) := by
        cases hb : lib.av_buffer_ref hw <;> simp [Proc.record, Proc.acquire, hev]
      simp only [Lib.copy_ret, Lib.open2_ret, negotiated_context, hw_events]
      refine ⟨fun h1 => ⟨(c1 h1).1, executed_of_events ?_⟩,
        fun h1 h2 => ⟨(c2 h1 h2).1, executed_of_events ?_⟩,
        fun h1 h2 => ⟨(c3 h1 h2).1, executed_of_events ?_⟩⟩
      · rw [(c1 h1).2, hev2, List.append_assoc]
      · rw [(c2 h1 h2).2, hev2, List.append_assoc]
      · rw [(c3 h1 h2).2, hev2, List.append_assoc]

set_option maxHeartbeats 4000000 in
theorem failure_kind_passthrough (lib : Lib) (hw_type : Int) (hw_ctx : Option AVBufferRef)
    (in_fpath : String) (s : Proc) (r : Run)
    (h : init_decoder lib hw_type hw_ctx in_fpath s = Except.ok r) :
    (r.failure_kind s = some FailureKind.OpenInputFailed →
      r.ret = lib.open_ret in_fpath ∧ r.ret < 0) ∧
    (r.failure_kind s = some FailureKind.StreamProbeFailed →
      r.ret = lib.probe_ret in_fpath ∧ r.ret < 0) ∧
    (r.failure_kind s = some FailureKind.NoVideoStream →
      r.ret = lib.select_ret in_fpath ∧ r.ret < 0) ∧
    (r.failure_kind s = some FailureKind.ParameterCopyFailed →
      (∃ codec_ctx par, r.ret = lib.avcodec_parameters_to_context codec_ctx par) ∧
      r.ret < 0) ∧
    (r.failure_kind s = some FailureKind.DecoderOpenFailed →
      (∃ codec_ctx decoder, r.ret = lib.avcodec_open2 codec_ctx decoder) ∧ r.ret < 0) := by
  unfold init_decoder negotiate_and_finish configure_and_open at h
  simp only [] at h
  repeat' (split at h)
  all_goals (first | (cases h; done) | skip)
  all_goals simp only [Except.ok.injEq] at h
  all_goals subst h
  all_goals simp only [Run.failure_kind, Run.failed_stage, Run.executed, Proc.record,
    Proc.error, Proc.acquire, Proc.release, avcodec_free_context, avformat_close_input,
    List.append_assoc, List.singleton_append, List.cons_append, List.nil_append,
    List.drop_left, apply_ite, Lib.open_ret, Lib.probe_ret, Lib.select_ret, Lib.probed]
  all_goals
    try simp only [AVCodecContext.fresh] at *
    simp [Event.failed, Stage.kind, List.find?, *]

/-! ## The callback -/

/-- C1. For a negotiated format `f` other than `AV_PIX_FMT_NONE` held in `hw_pix_fmt` and a
sentinel-terminated candidate array, `get_hw_format` returns `f` without a diagnostic when
`f` is among the entries before the first sentinel, and otherwise returns
`AV_PIX_FMT_NONE` and emits the "Failed to get HW surface format." diagnostic; it returns
`AV_PIX_FMT_NONE` exactly when `f` is not offered. -/
theorem get_hw_format_spec (f : Int) (pix_fmts : List Int) (hf : f ≠ AV_PIX_FMT_NONE)
    (hs : SentinelTerminated pix_fmts) :
    get_hw_format f pix_fmts =
      (if f ∈ candidates pix_fmts then some (f, [])
       else some (AV_PIX_FMT_NONE, [Diagnostic.hw_surface_format])) ∧
    ((get_hw_format f pix_fmts).map Prod.fst = some AV_PIX_FMT_NONE ↔
      f ∉ candidates pix_fmts) := by
  have h := get_hw_format_eq f pix_fmts hs
  refine ⟨h, ?_⟩
  rw [h]
  by_cases hmem : f ∈ candidates pix_fmts
  · simp [hmem, hf]
  · simp [hmem]

/-- Witness of C1 on the array `[3, 7, -1, 9]`: the format 7 is offered, the format 9 (after
the sentinel) is not. -/
theorem get_hw_format_spec_witness :
    get_hw_format 7 [3, 7, -1, 9] = some (7, []) ∧
    get_hw_format 9 [3, 7, -1, 9] = some (AV_PIX_FMT_NONE, [Diagnostic.hw_surface_format]) :=
  ⟨(get_hw_format_spec 7 [3, 7, -1, 9] (by decide) (by decide)).1,
   (get_hw_format_spec 9 [3, 7, -1, 9] (by decide) (by decide)).1⟩

/-! ## Hardware negotiation -/

/-- C3. With a hardware device reference, when stages 1 to 3 succeed and no configuration of
the decoder qualifies (the empty table included), the enumeration ends at the null
configuration past the table and `init_decoder` returns `AVERROR(ENOSYS)` with the
HwConfigUnsupported diagnostic; the Decoding Context and the Input Source (and the device
reference) have been released, neither the parameter copy nor the decoder open has run, and
the three outputs are unwritten. -/
theorem init_decoder_hw_config_unsupported (lib : Lib) (hw_type : Int) (hw : AVBufferRef)
    (in_fpath : String) (s : Proc) (ifmt_ctx : AVFormatContext) (stream_index : Int)
    (video_stream : AVStream) (decoder : AVCodec)
    (hp : Prepared lib in_fpath ifmt_ctx stream_index video_stream decoder)
    (hno : ∀ c ∈ decoder.hw_configs, qualifies c hw_type = false) :
    (∀ fuel, decoder.hw_configs.length < fuel →
      hw_config_loop decoder hw_type fuel 0
        = some (HwScan.unsupported decoder.hw_configs.length)) ∧
    ∃ r, init_decoder lib hw_type (some hw) in_fpath s = Except.ok r ∧
      r.ret = AVERROR ENOSYS ∧
      r.failure_kind s = some FailureKind.HwConfigUnsupported ∧
      r.logged s = [Diagnostic.hw_unsupported decoder.name hw_type] ∧
      r.proc.live = s.live ∧ r.ifmt_ctx = none ∧ r.codec_ctx = none ∧
      (∀ e ∈ r.executed s, e.stage ≠ Stage.parameter_copy ∧ e.stage ≠ Stage.decoder_open) ∧
      r.proc.outputs = s.outputs := by
  have hloop := hw_config_loop_unsupported decoder hw_type hno
  refine ⟨fun fuel hf => hloop fuel 0 (Nat.zero_le _) (by omega), ?_⟩
  rw [init_decoder_prepared hp]
  simp only [negotiate_and_finish,
    hloop (decoder.hw_configs.length + 1) 0 (Nat.zero_le _) (by omega)]
  have h1 := hp.opened
  have h2 := hp.probed
  have h3 := hp.index_nonneg
  rw [← hp.selected] at h3
  cases hb : lib.av_buffer_ref hw <;>
  · refine ⟨_, rfl, rfl, ?_, ?_, ?_, rfl, rfl, ?_, ?_⟩
    · simp [Run.failure_kind, Run.failed_stage, Run.executed, Proc.prepared, Proc.record,
        Proc.error, Proc.acquire, Proc.release, avcodec_free_context, avformat_close_input,
        failed_ret_of_nonneg, failed_ptr, h1, h2, h3, Stage.kind, List.find?]
    · simp [Run.logged, Proc.prepared, Proc.record,
        Proc.error, Proc.acquire, Proc.release, avcodec_free_context, avformat_close_input]
    · simp [Proc.prepared, Proc.record,
        Proc.error, Proc.acquire, Proc.release, avcodec_free_context, avformat_close_input]
    · intro e he
      simp [Run.executed, Proc.prepared, Proc.record,
        Proc.error, Proc.acquire, Proc.release, avcodec_free_context, avformat_close_input] at he
      rcases he with h | h | h | h | h | h <;> subst h <;> simp
    · simp [Proc.outputs, Proc.prepared, Proc.record,
        Proc.error, Proc.acquire, Proc.release, avcodec_free_context, avformat_close_input]

/-- C2. With a hardware device reference, when stages 1 to 3 succeed and the decoder's table
has a qualifying configuration, there is a smallest qualifying index `k`; the loop ends
there after `k + 1` iterations, `init_decoder` leaves `hw_pix_fmt` equal to the `pix_fmt` of
entry `k`, and every table with the same first `k + 1` entries gives the same result. -/
theorem init_decoder_first_qualifying_config (lib : Lib) (hw_type : Int) (hw : AVBufferRef)
    (in_fpath : String) (s : Proc) (ifmt_ctx : AVFormatContext) (stream_index : Int)
    (video_stream : AVStream) (decoder : AVCodec)
    (hp : Prepared lib in_fpath ifmt_ctx stream_index video_stream decoder)
    (hex : ∃ c ∈ decoder.hw_configs, qualifies c hw_type = true) :
    ∃ (k : Nat) (config : AVCodecHWConfig),
      FirstQualifying decoder hw_type k config ∧
      (∀ fuel, k < fuel →
        hw_config_loop decoder hw_type fuel 0 = some (HwScan.found k config.pix_fmt)) ∧
      (∃ r, init_decoder lib hw_type (some hw) in_fpath s = Except.ok r ∧
        r.proc.hw_pix_fmt = config.pix_fmt ∧
        Event.mk Stage.hw_negotiation (Outcome.ptr true) ∈ r.executed s) ∧
      (∀ other : AVCodec, other.hw_configs.take (k + 1) = decoder.hw_configs.take (k + 1) →
        ∀ fuel, k < fuel →
          hw_config_loop other hw_type fuel 0 = some (HwScan.found k config.pix_fmt)) := by
  obtain ⟨k, config, hk, hq, hmin⟩ := exists_first_qualifying hw_type decoder.hw_configs hex
  have hloop := hw_config_loop_found decoder hw_type k config hk hq hmin
  have hklen : k < decoder.hw_configs.length := (List.getElem?_eq_some.mp hk).1
  refine ⟨k, config, ⟨hk, hq, hmin⟩,
    fun fuel hf => hloop fuel 0 (Nat.zero_le _) (by omega), ?_, ?_⟩
  · rw [init_decoder_prepared hp]
    simp only [negotiate_and_finish,
      hloop (decoder.hw_configs.length + 1) 0 (Nat.zero_le _) (by omega)]
    refine ⟨_, rfl, ?_, ?_⟩
    · rw [configure_and_open_hw_pix_fmt]
    · obtain ⟨evs, hevs⟩ := configure_and_open_events_prefix lib ifmt_ctx stream_index
        video_stream decoder
        { AVCodecContext.fresh decoder with
          hw_device_ctx := if lib.av_buffer_ref hw then some hw else none,
          get_format := GetFormat.get_hw_format }
        { (if lib.av_buffer_ref hw then
            (s.prepared lib in_fpath ifmt_ctx).acquire Resource.hw_device_ref
           else s.prepared lib in_fpath ifmt_ctx).record Stage.hw_negotiation
              (Outcome.ptr true) with hw_pix_fmt := config.pix_fmt }
      simp only [Run.executed]
      rw [hevs]
      cases hb : lib.av_buffer_ref hw <;>
        simp [Proc.prepared, Proc.record, Proc.acquire]
  · intro other hother fuel hf
    have htake : ∀ j, j ≤ k → other.hw_configs[j]? = decoder.hw_configs[j]? := by
      intro j hj
      have h1 := List.getElem?_take_of_lt (l := other.hw_configs) (show j < k + 1 by omega)
      have h2 := List.getElem?_take_of_lt (l := decoder.hw_configs) (show j < k + 1 by omega)
      rw [← h1, ← h2, hother]
    refine hw_config_loop_found other hw_type k config ?_ hq ?_ fuel 0 (Nat.zero_le _)
      (by omega)
    · rw [htake k (Nat.le_refl _)]; exact hk
    · intro j c hj hjc
      rw [htake j (by omega)] at hjc
      exact hmin j c hj hjc

/-- Witness of C2: `sample_decoder` with device type 2.  Entries 0 and 1 do not qualify, entry
2 (format 117) does, entry 3 (format 200) qualifies too and is never reached. -/
theorem init_decoder_first_qualifying_config_witness :
    ∃ (k : Nat) (config : AVCodecHWConfig),
      FirstQualifying sample_decoder 2 k config ∧
      (∀ fuel, k < fuel →
        hw_config_loop sample_decoder 2 fuel 0 = some (HwScan.found k config.pix_fmt)) ∧
      (∃ r, init_decoder sample_lib 2 (some sample_hw_ctx) "in.mp4" Proc.initial = Except.ok r ∧
        r.proc.hw_pix_fmt = config.pix_fmt ∧
        Event.mk Stage.hw_negotiation (Outcome.ptr true) ∈ r.executed Proc.initial) ∧
      (∀ other : AVCodec,
        other.hw_configs.take (k + 1) = sample_decoder.hw_configs.take (k + 1) →
        ∀ fuel, k < fuel →
          hw_config_loop other 2 fuel 0 = some (HwScan.found k config.pix_fmt)) :=
  init_decoder_first_qualifying_config sample_lib 2 sample_hw_ctx "in.mp4" Proc.initial
    ⟨"in.mp4", [sample_stream]⟩ 0 sample_stream sample_decoder (sample_prepared "in.mp4")
    ⟨⟨117, 3, 2⟩, by decide, by decide⟩

/-- Witness of C3: `sample_decoder` has no configuration of device type 9. -/
theorem init_decoder_hw_config_unsupported_witness :
    (∀ c ∈ sample_decoder.hw_configs, qualifies c 9 = false) ∧
    ∃ r, init_decoder sample_lib 9 (some sample_hw_ctx) "in.mp4" Proc.initial = Except.ok r ∧
      r.ret = AVERROR ENOSYS ∧ r.proc.live = [] ∧ r.proc.outputs = Proc.initial.outputs :=
  ⟨by decide,
   (init_decoder_hw_config_unsupported sample_lib 9 sample_hw_ctx "in.mp4" Proc.initial
      ⟨"in.mp4", [sample_stream]⟩ 0 sample_stream sample_decoder (sample_prepared "in.mp4")
      (by decide)).2.imp
    fun _ h => ⟨h.1, h.2.1, h.2.2.2.2.1, h.2.2.2.2.2.2.2.2⟩⟩

/-! ## The whole sequence -/

/-- C5. No partial output: when `init_decoder` returns a non-zero code the three output
locations hold the values they held before the call; when it returns 0 every executed
stage has succeeded, the decoder open among them, and the Decoding Context written to
`*dec_ctx` has its parameters and time base set and is open. -/
theorem init_decoder_no_partial_output (lib : Lib) (hw_type : Int)
    (hw_ctx : Option AVBufferRef) (in_fpath : String) (s : Proc)
    (hc : IndexContract lib in_fpath) :
    ∃ r, init_decoder lib hw_type hw_ctx in_fpath s = Except.ok r ∧
      (r.ret ≠ 0 → r.proc.outputs = s.outputs) ∧
      (r.ret = 0 →
        (∀ e ∈ r.executed s, e.failed = false) ∧
        (∃ code, 0 ≤ code ∧
          Event.mk Stage.decoder_open (Outcome.ret code) ∈ r.executed s) ∧
        ∃ c, r.proc.dec_ctx = some c ∧ c.is_open = true ∧ c.par.isSome = true ∧
          c.time_base.isSome = true) := by
  obtain ⟨r, hr⟩ := init_decoder_defined lib hw_type hw_ctx in_fpath s hc
  obtain ⟨_, _, hzero, hfail, hok, _⟩ := init_decoder_run_facts lib hw_type hw_ctx in_fpath s r hr
  refine ⟨r, hr, fun h => (hfail h).2.1, fun h => ⟨hzero.mp h, ?_, ?_⟩⟩
  · exact (hok h).2.2.2.2.1
  · obtain ⟨c, hc1, hc2, hc3, hc4⟩ := (hok h).2.2.2.2.2
    exact ⟨c, by rw [(hok h).2.2.1, hc1], hc2, hc3, hc4⟩

/-- C6. Fail-fast in stage order.  The stages a run executes are in strictly increasing
order of the sequence (so each at most once), all but the last have succeeded, the run
returns 0 exactly when every executed stage succeeded, and otherwise the last executed stage
is the first failing one and the run returns its code, which is negative.  Stage by stage,
in terms of what the library returns: if `avformat_open_input` returns a negative code the
run returns that code and has executed that stage only; likewise for the stream probe and
the stream selection after the stages before them succeeded; a missing decoder gives
`AVERROR_DECODER_NOT_FOUND`, a null context `AVERROR(ENOMEM)`, a device reference with no
qualifying configuration `AVERROR(ENOSYS)`; a negative code of the parameter copy or of the
decoder open is returned as is; and when every stage succeeds the run returns 0 having
executed every stage once, the hardware negotiation exactly when a device reference was
supplied. -/
theorem init_decoder_fail_fast (lib : Lib) (hw_type : Int) (hw_ctx : Option AVBufferRef)
    (in_fpath : String) (s : Proc) (hc : IndexContract lib in_fpath) :
    ∃ r, init_decoder lib hw_type hw_ctx in_fpath s = Except.ok r ∧
      ((r.executed s).map (fun e => e.stage.rank)).Pairwise (· < ·) ∧
      (∀ e ∈ (r.executed s).dropLast, e.failed = false) ∧
      (r.ret = 0 ↔ ∀ e ∈ r.executed s, e.failed = false) ∧
      (r.ret ≠ 0 → r.ret < 0 ∧
        ∃ e, (r.executed s).getLast? = some e ∧
          (r.executed s).find? Event.failed = some e ∧ e.failure_code = some r.ret) ∧
      (lib.open_ret in_fpath < 0 →
        r.ret = lib.open_ret in_fpath ∧
        r.executed s = (container_events lib in_fpath).take 1) ∧
      (0 ≤ lib.open_ret in_fpath → lib.probe_ret in_fpath < 0 →
        r.ret = lib.probe_ret in_fpath ∧
        r.executed s = (container_events lib in_fpath).take 2) ∧
      (0 ≤ lib.open_ret in_fpath → 0 ≤ lib.probe_ret in_fpath → lib.select_ret in_fpath < 0 →
        r.ret = lib.select_ret in_fpath ∧
        r.executed s = container_events lib in_fpath) ∧
      (∀ video_stream : AVStream,
        0 ≤ lib.open_ret in_fpath → 0 ≤ lib.probe_ret in_fpath → 0 ≤ lib.select_ret in_fpath →
        (lib.probed in_fpath).streams[(lib.select_ret in_fpath).toNat]? = some video_stream →
        lib.avcodec_find_decoder video_stream.codecpar.codec_id = none →
        r.ret = AVERROR_DECODER_NOT_FOUND ∧
        r.executed s = container_events lib in_fpath ++
          [Event.mk Stage.decoder_lookup (Outcome.ptr false)]) ∧
      (∀ (video_stream : AVStream) (decoder : AVCodec),
        0 ≤ lib.open_ret in_fpath → 0 ≤ lib.probe_ret in_fpath → 0 ≤ lib.select_ret in_fpath →
        (lib.probed in_fpath).streams[(lib.select_ret in_fpath).toNat]? = some video_stream →
        lib.avcodec_find_decoder video_stream.codecpar.codec_id = some decoder →
        lib.avcodec_alloc_context3 decoder = false →
        r.ret = AVERROR ENOMEM ∧
        r.executed s = container_events lib in_fpath ++
          [Event.mk Stage.decoder_lookup (Outcome.ptr true),
           Event.mk Stage.context_alloc (Outcome.ptr false)]) ∧
      (∀ (ifmt_ctx : AVFormatContext) (stream_index : Int) (video_stream : AVStream)
          (decoder : AVCodec) (hw : AVBufferRef),
        Prepared lib in_fpath ifmt_ctx stream_index video_stream decoder →
        hw_ctx = some hw → (∀ c ∈ decoder.hw_configs, qualifies c hw_type = false) →
        r.ret = AVERROR ENOSYS ∧
        r.executed s = prepared_events lib in_fpath ++
          [Event.mk Stage.hw_negotiation (Outcome.ptr false)]) ∧
      (∀ (ifmt_ctx : AVFormatContext) (stream_index : Int) (video_stream : AVStream)
          (decoder : AVCodec),
        Prepared lib in_fpath ifmt_ctx stream_index video_stream decoder →
        (hw_ctx = none ∨ ∃ c ∈ decoder.hw_configs, qualifies c hw_type = true) →
        (lib.copy_ret hw_ctx decoder video_stream < 0 →
          r.ret = lib.copy_ret hw_ctx decoder video_stream ∧
          r.executed s = prepared_events lib in_fpath ++ hw_events hw_ctx ++
            [Event.mk Stage.parameter_copy
              (Outcome.ret (lib.copy_ret hw_ctx decoder video_stream))]) ∧
        (0 ≤ lib.copy_ret hw_ctx decoder video_stream →
          lib.open2_ret hw_ctx ifmt_ctx decoder video_stream < 0 →
          r.ret = lib.open2_ret hw_ctx ifmt_ctx decoder video_stream ∧
          r.executed s = prepared_events lib in_fpath ++ hw_events hw_ctx ++
            [Event.mk Stage.parameter_copy
              (Outcome.ret (lib.copy_ret hw_ctx decoder video_stream)),
             Event.mk Stage.decoder_open
              (Outcome.ret (lib.open2_ret hw_ctx ifmt_ctx decoder video_stream))]) ∧
        (0 ≤ lib.copy_ret hw_ctx decoder video_stream →
          0 ≤ lib.open2_ret hw_ctx ifmt_ctx decoder video_stream →
          r.ret = 0 ∧
          r.executed s = prepared_events lib in_fpath ++ hw_events hw_ctx ++
            [Event.mk Stage.parameter_copy
              (Outcome.ret (lib.copy_ret hw_ctx decoder video_stream)),
             Event.mk Stage.decoder_open
              (Outcome.ret (lib.open2_ret hw_ctx ifmt_ctx decoder video_stream))])) := by
  obtain ⟨r, hr⟩ := init_decoder_defined lib hw_type hw_ctx in_fpath s hc
  obtain ⟨h1, h2, h3, h4, _⟩ := init_decoder_run_facts lib hw_type hw_ctx in_fpath s r hr
  exact ⟨r, hr, h1, h2, h3, fun h => ⟨(h4 h).1, (h4 h).2.2.2⟩,
    init_decoder_stage_table lib hw_type hw_ctx in_fpath s r hr⟩

/-- C7. When stages 1 to 3 succeed, no hardware device reference is supplied, and the
parameter copy and the decoder open succeed, `init_decoder` returns 0 and writes the probed
Input Source, the opened Decoding Context (bound to the decoder found for the selected
stream, with that stream's parameters and time base, no device reference and the default
callback) and the index returned by the Stream Selector. -/
theorem init_decoder_software_success (lib : Lib) (hw_type : Int) (in_fpath : String)
    (s : Proc) (ifmt_ctx : AVFormatContext) (stream_index : Int) (video_stream : AVStream)
    (decoder : AVCodec)
    (hp : Prepared lib in_fpath ifmt_ctx stream_index video_stream decoder)
    (hcopy : 0 ≤ lib.avcodec_parameters_to_context (AVCodecContext.fresh decoder)
      video_stream.codecpar)
    (hopen : 0 ≤ lib.avcodec_open2
      ((AVCodecContext.fresh decoder).configured lib ifmt_ctx video_stream) decoder) :
    ∃ r, init_decoder lib hw_type none in_fpath s = Except.ok r ∧
      r.ret = 0 ∧
      r.proc.fmt_ctx = some ifmt_ctx ∧
      r.proc.dec_ctx = some
        { codec := decoder, hw_device_ctx := none, get_format := GetFormat.library_default,
          par := some video_stream.codecpar,
          time_base := some video_stream.time_base,
          pkt_timebase := some video_stream.time_base,
          framerate := some (lib.av_guess_frame_rate ifmt_ctx video_stream),
          is_open := true } ∧
      r.proc.in_vstream_idx = stream_index ∧
      stream_index = lib.av_find_best_stream ifmt_ctx ∧
      ifmt_ctx.streams[stream_index.toNat]? = some video_stream ∧
      lib.avcodec_find_decoder video_stream.codecpar.codec_id = some decoder ∧
      r.proc.hw_pix_fmt = s.hw_pix_fmt ∧
      r.proc.live = Resource.decoding_context :: Resource.input_source :: s.live := by
  rw [init_decoder_prepared hp]
  simp only [AVCodecContext.configured, AVCodecContext.fresh] at hcopy hopen
  refine ⟨_, rfl, ?_⟩
  simp [configure_and_open, AVCodecContext.fresh, not_lt.mpr hcopy, not_lt.mpr hopen,
    Proc.record, Proc.prepared, hp.selected, hp.stream, hp.decoder_found]

/-- Witness of C5: with `lib_open2_fails` the decoder open fails and the outputs keep their
initial values. -/
theorem init_decoder_no_partial_output_witness :
    IndexContract lib_open2_fails "in.mp4" ∧
    ∃ r, init_decoder lib_open2_fails 0 none "in.mp4" Proc.initial = Except.ok r ∧
      (r.ret ≠ 0 → r.proc.outputs = Proc.initial.outputs) :=
  ⟨by unfold IndexContract; decide,
   (init_decoder_no_partial_output lib_open2_fails 0 none "in.mp4" Proc.initial
      (by unfold IndexContract; decide)).imp fun _ h => ⟨h.1, h.2.1⟩⟩

/-- Witness of C6: with `lib_probe_fails` the run returns the probe's code
`AVERROR_INVALIDDATA` after the two stages open input and stream probe; with
`lib_open2_fails` and a device reference of type 2 it returns the decoder open's code -22
after all eight stages. -/
theorem init_decoder_fail_fast_witness :
    (IndexContract lib_probe_fails "in.mp4" ∧
      ∃ r, init_decoder lib_probe_fails 0 none "in.mp4" Proc.initial = Except.ok r ∧
        r.ret = AVERROR_INVALIDDATA ∧
        r.executed Proc.initial =
          [ Event.mk Stage.open_input (Outcome.ret 0),
            Event.mk Stage.stream_probe (Outcome.ret AVERROR_INVALIDDATA) ]) ∧
    (IndexContract lib_open2_fails "in.mp4" ∧
      ∃ r, init_decoder lib_open2_fails 2 (some sample_hw_ctx) "in.mp4" Proc.initial
          = Except.ok r ∧
        r.ret = -22 ∧
        r.executed Proc.initial =
          [ Event.mk Stage.open_input (Outcome.ret 0),
            Event.mk Stage.stream_probe (Outcome.ret 0),
            Event.mk Stage.stream_select (Outcome.ret 0),
            Event.mk Stage.decoder_lookup (Outcome.ptr true),
            Event.mk Stage.context_alloc (Outcome.ptr true),
            Event.mk Stage.hw_negotiation (Outcome.ptr true),
            Event.mk Stage.parameter_copy (Outcome.ret 0),
            Event.mk Stage.decoder_open (Outcome.ret (-22)) ]) :=
  ⟨⟨by unfold IndexContract; decide,
    (init_decoder_fail_fast lib_probe_fails 0 none "in.mp4" Proc.initial
      (by unfold IndexContract; decide)).imp
      fun _ h => ⟨h.1, h.2.2.2.2.2.2.1 (by decide) (by decide)⟩⟩,
   ⟨by unfold IndexContract; decide,
    (init_decoder_fail_fast lib_open2_fails 2 (some sample_hw_ctx) "in.mp4" Proc.initial
      (by unfold IndexContract; decide)).imp
      fun _ h => ⟨h.1,
        (h.2.2.2.2.2.2.2.2.2.2.2 ⟨"in.mp4", [sample_stream]⟩ 0 sample_stream sample_decoder
          (open2_fails_prepared "in.mp4")
          (Or.inr ⟨⟨117, 3, 2⟩, by decide, rfl⟩)).2.1 (by decide) (by decide)⟩⟩⟩

/-- Witness of C7: `sample_lib` on "in.mp4" without a device reference. -/
theorem init_decoder_software_success_witness :
    ∃ r, init_decoder sample_lib 0 none "in.mp4" Proc.initial = Except.ok r ∧
      r.ret = 0 ∧ r.proc.fmt_ctx = some ⟨"in.mp4", [sample_stream]⟩ ∧
      r.proc.in_vstream_idx = 0 :=
  (init_decoder_software_success sample_lib 0 "in.mp4" Proc.initial
      ⟨"in.mp4", [sample_stream]⟩ 0 sample_stream sample_decoder (sample_prepared "in.mp4")
      (Int.le_refl 0) (Int.le_refl 0)).imp
    fun _ h => ⟨h.1, h.2.1, h.2.2.1, h.2.2.2.2.1⟩

/-- C9. Without a hardware device reference the run is the same for every `hw_type`; the
static `hw_pix_fmt` keeps its value, the hardware negotiation stage is not executed, the
Decoding Context has no device reference and keeps the default callback, no device
reference is acquired, and the run does not fail with HwConfigUnsupported. -/
theorem init_decoder_without_device (lib : Lib) (hw_type : Int) (in_fpath : String) (s : Proc)
    (hc : IndexContract lib in_fpath) :
    ∃ r, init_decoder lib hw_type none in_fpath s = Except.ok r ∧
      (∀ other_type, init_decoder lib other_type none in_fpath s = Except.ok r) ∧
      r.proc.hw_pix_fmt = s.hw_pix_fmt ∧
      (∀ e ∈ r.executed s, e.stage ≠ Stage.hw_negotiation) ∧
      (∀ c, r.codec_ctx = some c →
        c.hw_device_ctx = none ∧ c.get_format = GetFormat.library_default) ∧
      r.proc.live.count Resource.hw_device_ref = s.live.count Resource.hw_device_ref ∧
      (∀ name t, Diagnostic.hw_unsupported name t ∉ r.logged s) ∧
      r.failure_kind s ≠ some FailureKind.HwConfigUnsupported := by
  obtain ⟨r, hr⟩ := init_decoder_defined lib hw_type none in_fpath s hc
  obtain ⟨_, _, _, _, _, hhw⟩ := init_decoder_run_facts lib hw_type none in_fpath s r hr
  obtain ⟨h1, h2, h3, h4, h5⟩ := hhw rfl
  refine ⟨r, hr, ?_, h1, h2, h3, h5, h4, ?_⟩
  · intro other_type
    rw [← hr]
    simp only [init_decoder, negotiate_and_finish]
  · intro hk
    simp only [Run.failure_kind, Run.failed_stage, Option.map_eq_some'] at hk
    obtain ⟨st, ⟨e, hfind, hst⟩, hkind⟩ := hk
    have := h2 e (List.mem_of_find?_eq_some hfind)
    rw [hst] at this
    exact kind_ne_hw_of_stage_ne this hkind

/-- Witness of C9: `sample_lib` without a device reference, requested device type 2. -/
theorem init_decoder_without_device_witness :
    IndexContract sample_lib "in.mp4" ∧
    ∃ r, init_decoder sample_lib 2 none "in.mp4" Proc.initial = Except.ok r ∧
      r.proc.hw_pix_fmt = AV_PIX_FMT_NONE :=
  ⟨sample_index_contract,
   (init_decoder_without_device sample_lib 2 "in.mp4" Proc.initial sample_index_contract).imp
    fun _ h => ⟨h.1, h.2.2.1⟩⟩

/-- C10. Single-slot negotiated format: after two hardware negotiations in sequence that
succeed with the formats of `config1` and then `config2`, different from each other, the
static `hw_pix_fmt` holds the second format and not the first; the callback installed by the
first session, called on a sentinel-terminated array offering the first format and not the
second, returns `AV_PIX_FMT_NONE`, and called on an array offering the second returns it. -/
theorem hw_pix_fmt_single_slot (lib1 lib2 : Lib) (hw_type1 hw_type2 : Int) (hw1 hw2 : AVBufferRef)
    (in_fpath1 in_fpath2 : String) (s : Proc)
    (ifmt_ctx1 ifmt_ctx2 : AVFormatContext) (stream_index1 stream_index2 : Int)
    (video_stream1 video_stream2 : AVStream) (decoder1 decoder2 : AVCodec)
    (k1 k2 : Nat) (config1 config2 : AVCodecHWConfig)
    (hp1 : Prepared lib1 in_fpath1 ifmt_ctx1 stream_index1 video_stream1 decoder1)
    (hp2 : Prepared lib2 in_fpath2 ifmt_ctx2 stream_index2 video_stream2 decoder2)
    (hq1 : FirstQualifying decoder1 hw_type1 k1 config1)
    (hq2 : FirstQualifying decoder2 hw_type2 k2 config2)
    (hne : config1.pix_fmt ≠ config2.pix_fmt) :
    ∃ r1 r2,
      init_decoder lib1 hw_type1 (some hw1) in_fpath1 s = Except.ok r1 ∧
      init_decoder lib2 hw_type2 (some hw2) in_fpath2 r1.proc = Except.ok r2 ∧
      r1.proc.hw_pix_fmt = config1.pix_fmt ∧
      (∃ c, r1.codec_ctx = some c ∧ c.get_format = GetFormat.get_hw_format) ∧
      r2.proc.hw_pix_fmt = config2.pix_fmt ∧
      r2.proc.hw_pix_fmt ≠ config1.pix_fmt ∧
      ∀ pix_fmts, SentinelTerminated pix_fmts →
        (config1.pix_fmt ∈ candidates pix_fmts → config2.pix_fmt ∉ candidates pix_fmts →
          get_hw_format r2.proc.hw_pix_fmt pix_fmts
            = some (AV_PIX_FMT_NONE, [Diagnostic.hw_surface_format])) ∧
        (config2.pix_fmt ∈ candidates pix_fmts →
          get_hw_format r2.proc.hw_pix_fmt pix_fmts = some (config2.pix_fmt, [])) := by
  obtain ⟨r1, hr1, hfmt1, hcb1⟩ := init_decoder_negotiated hp1 hw_type1 hw1 s hq1
  obtain ⟨r2, hr2, hfmt2, _⟩ := init_decoder_negotiated hp2 hw_type2 hw2 r1.proc hq2
  refine ⟨r1, r2, hr1, hr2, hfmt1, hcb1, hfmt2, ?_, ?_⟩
  · rw [hfmt2]; exact fun h => hne h.symm
  · intro pix_fmts hs
    rw [hfmt2, get_hw_format_eq _ _ hs]
    exact ⟨fun _ h2 => by simp [h2], fun h2 => by simp [h2]⟩

/-- Witness of C10: a session on `sample_decoder` (device type 2, format 117) followed by a
session on `other_decoder` (device type 2, format 46); the array `[117, 44, -1]` offers the
first format only. -/
theorem hw_pix_fmt_single_slot_witness :
    ∃ r1 r2,
      init_decoder sample_lib 2 (some sample_hw_ctx) "in.mp4" Proc.initial = Except.ok r1 ∧
      init_decoder lib_other 2 (some sample_hw_ctx) "other.mp4" r1.proc = Except.ok r2 ∧
      r1.proc.hw_pix_fmt = 117 ∧ r2.proc.hw_pix_fmt = 46 ∧
      get_hw_format r2.proc.hw_pix_fmt [117, 44, -1]
        = some (AV_PIX_FMT_NONE, [Diagnostic.hw_surface_format]) := by
  obtain ⟨r1, r2, h1, h2, h3, _, h4, _, h5⟩ :=
    hw_pix_fmt_single_slot sample_lib lib_other 2 2 sample_hw_ctx sample_hw_ctx
      "in.mp4" "other.mp4" Proc.initial ⟨"in.mp4", [sample_stream]⟩ ⟨"other.mp4", [other_stream]⟩
      0 0 sample_stream other_stream sample_decoder other_decoder 2 0 ⟨117, 3, 2⟩ ⟨46, 1, 2⟩
      (sample_prepared "in.mp4") (other_prepared "other.mp4")
      sample_first_qualifying other_first_qualifying (by decide)
  exact ⟨r1, r2, h1, h2, h3, h4, (h5 [117, 44, -1] (by decide)).1 (by decide) (by decide)⟩

/-! ## Error codes and resources -/

/-- C8, as stated, fails: a run whose input cannot be opened because the library is out of
memory and a run whose context allocation fails both return `AVERROR(ENOMEM)`, with
failure kinds OpenInputFailed and OutOfMemory. -/
theorem failure_code_not_distinguishing :
    (init_decoder lib_open_enomem 0 none "in.mp4" Proc.initial).toOption.map
        (fun r => (r.ret, r.failure_kind Proc.initial))
      = some (AVERROR ENOMEM, some FailureKind.OpenInputFailed) ∧
    (init_decoder lib_alloc_fails 0 none "in.mp4" Proc.initial).toOption.map
        (fun r => (r.ret, r.failure_kind Proc.initial))
      = some (AVERROR ENOMEM, some FailureKind.OutOfMemory) := by
  constructor <;> rfl

/-- C8, amended. The code a failing run returns is that of its first failing stage.  For
the kinds DecoderNotFound, OutOfMemory and HwConfigUnsupported it is the constant of the
kind (`AVERROR_DECODER_NOT_FOUND`, `AVERROR(ENOMEM)`, `AVERROR(ENOSYS)`), and two failing
runs whose kinds are different and both among these three return different codes.  For
OpenInputFailed, StreamProbeFailed and NoVideoStream it is the negative code the library
returned from `avformat_open_input`, `avformat_find_stream_info` and `av_find_best_stream`;
for ParameterCopyFailed and DecoderOpenFailed it is a negative code the library returned
from `avcodec_parameters_to_context` and `avcodec_open2`. -/
theorem fixed_failure_codes_distinguish (lib1 lib2 : Lib) (hw_type1 hw_type2 : Int)
    (hw_ctx1 hw_ctx2 : Option AVBufferRef) (in_fpath1 in_fpath2 : String) (s1 s2 : Proc)
    (r1 r2 : Run) (k1 k2 : FailureKind)
    (h1 : init_decoder lib1 hw_type1 hw_ctx1 in_fpath1 s1 = Except.ok r1)
    (h2 : init_decoder lib2 hw_type2 hw_ctx2 in_fpath2 s2 = Except.ok r2)
    (hk1 : r1.failure_kind s1 = some k1) (hk2 : r2.failure_kind s2 = some k2) :
    (k1.fixed_code = true → k2.fixed_code = true → k1 ≠ k2 → r1.ret ≠ r2.ret) ∧
    (k1 = FailureKind.DecoderNotFound → r1.ret = AVERROR_DECODER_NOT_FOUND) ∧
    (k1 = FailureKind.OutOfMemory → r1.ret = AVERROR ENOMEM) ∧
    (k1 = FailureKind.HwConfigUnsupported → r1.ret = AVERROR ENOSYS) ∧
    (k1 = FailureKind.OpenInputFailed → r1.ret = lib1.open_ret in_fpath1 ∧ r1.ret < 0) ∧
    (k1 = FailureKind.StreamProbeFailed → r1.ret = lib1.probe_ret in_fpath1 ∧ r1.ret < 0) ∧
    (k1 = FailureKind.NoVideoStream → r1.ret = lib1.select_ret in_fpath1 ∧ r1.ret < 0) ∧
    (k1 = FailureKind.ParameterCopyFailed →
      (∃ codec_ctx par, r1.ret = lib1.avcodec_parameters_to_context codec_ctx par) ∧
      r1.ret < 0) ∧
    (k1 = FailureKind.DecoderOpenFailed →
      (∃ codec_ctx decoder, r1.ret = lib1.avcodec_open2 codec_ctx decoder) ∧ r1.ret < 0) := by
  have c1 := fixed_kind_ret lib1 hw_type1 hw_ctx1 in_fpath1 s1 r1 h1 k1 hk1
  have c2 := fixed_kind_ret lib2 hw_type2 hw_ctx2 in_fpath2 s2 r2 h2 k2 hk2
  obtain ⟨p1, p2, p3, p4, p5⟩ :=
    failure_kind_passthrough lib1 hw_type1 hw_ctx1 in_fpath1 s1 r1 h1
  refine ⟨?_, c1.1, c1.2.1, c1.2.2, fun hk => p1 (hk ▸ hk1), fun hk => p2 (hk ▸ hk1),
    fun hk => p3 (hk ▸ hk1), fun hk => p4 (hk ▸ hk1), fun hk => p5 (hk ▸ hk1)⟩
  intro hf1 hf2 hne
  obtain ⟨a1, b1, d1⟩ := c1
  obtain ⟨a2, b2, d2⟩ := c2
  cases k1 <;> cases k2 <;> simp [FailureKind.fixed_code] at hf1 hf2 hne <;>
    simp_all <;> decide

/-- Witness of C8 amended: a failed context allocation against a failed hardware
negotiation return different codes; a failed stream probe returns the probe's code
`AVERROR_INVALIDDATA`. -/
theorem fixed_failure_codes_distinguish_witness :
    (∃ r1 r2,
      init_decoder lib_alloc_fails 0 none "in.mp4" Proc.initial = Except.ok r1 ∧
      init_decoder sample_lib 9 (some sample_hw_ctx) "in.mp4" Proc.initial = Except.ok r2 ∧
      r1.failure_kind Proc.initial = some FailureKind.OutOfMemory ∧
      r2.failure_kind Proc.initial = some FailureKind.HwConfigUnsupported ∧
      r1.ret ≠ r2.ret) ∧
    (∃ r1,
      init_decoder lib_probe_fails 0 none "in.mp4" Proc.initial = Except.ok r1 ∧
      r1.failure_kind Proc.initial = some FailureKind.StreamProbeFailed ∧
      r1.ret = AVERROR_INVALIDDATA) :=
  ⟨⟨_, _, rfl, rfl, rfl, rfl,
    (fixed_failure_codes_distinguish lib_alloc_fails sample_lib 0 9 none (some sample_hw_ctx)
      "in.mp4" "in.mp4" Proc.initial Proc.initial _ _ FailureKind.OutOfMemory
      FailureKind.HwConfigUnsupported rfl rfl rfl rfl).1 rfl rfl (by decide)⟩,
   ⟨_, rfl, rfl,
    ((fixed_failure_codes_distinguish lib_probe_fails sample_lib 0 9 none (some sample_hw_ctx)
      "in.mp4" "in.mp4" Proc.initial Proc.initial _ _ FailureKind.StreamProbeFailed
      FailureKind.HwConfigUnsupported rfl rfl rfl rfl).2.2.2.2.2.1 rfl).1⟩⟩

/-- C4 fails on the code: when the stream probe fails, the run returns the library's
negative code and the Input Source opened by stage 1 is still held; when the decoder open
fails in a hardware session, the device reference, the Decoding Context and the Input
Source are all still held. -/
theorem init_decoder_failure_keeps_resources :
    (init_decoder lib_probe_fails 0 none "in.mp4" Proc.initial).toOption.map
        (fun r => (r.ret, r.proc.live))
      = some (AVERROR_INVALIDDATA, [Resource.input_source]) ∧
    (init_decoder lib_open2_fails 2 (some sample_hw_ctx) "in.mp4" Proc.initial).toOption.map
        (fun r => (r.ret, r.proc.live))
      = some (-22, [Resource.hw_device_ref, Resource.decoding_context,
          Resource.input_source]) := by
  constructor <;> rfl

end Video2x
